import Mathlib

/-!
# Verification of the trust-aggregation core (votes, duplicate flags, reputation, merge)

Shallow embedding of the JavaScript data-access layer of this repository:

* `data/votes.js`            — vote ledger (`castVote`, `getTotalVotes`, …)
* `data/duplicateFlags.js`   — duplicate-flag ledger (`flagDuplicate`, `getDuplicateTotals`, …)
* `users.js`                 — reputation bookkeeping (`getUserById`, `adjustReputation`)
* `data/reports.js`          — report lookup and cached totals (`getReportByReportId`,
  `updateReportVotes`)
* `data/reportsAdmin.js`     — `mergeDuplicateReports`

Modelling conventions
* MongoDB collections are lists of row structures; `findOne` is `List.find?` (first match
  in natural order), `deleteOne` removes the first match, `updateOne` edits the first match.
* JavaScript numbers are modelled as `Option ℚ`: `some q` is a finite value, `none` stands
  for any non-finite value (`NaN`, `±Infinity`) or a missing/unconvertible field, which is
  exactly the distinction `Number.isFinite` draws at every use site in the source.
* `Date` values are milliseconds since the epoch (`Nat`); a missing/invalid date field is
  `none`, matching the `toDateSafe` / truthiness checks of the source (a `Date` object is
  always truthy in JS, so `some 0` is "present", not falsy).
* Thrown errors are `Except` failures carrying the message and HTTP-ish status code of
  `makeError`.  Mutating operations return the database alongside the `Except`, so the
  state at the moment an exception is thrown is observable.
-/

set_option autoImplicit false

deriving instance DecidableEq for Except

namespace CS546

/-- A JavaScript number as the source discriminates them: `some q` is finite, `none` is
`NaN`/`±Infinity` (or a field whose `Number(...)` conversion is not finite). -/
abbrev JSNum := Option ℚ

/-- JavaScript `String.prototype.trim`, defined structurally on the character list
(drop leading and trailing whitespace). -/
def jsTrim (s : String) : String :=
  ⟨((s.data.dropWhile Char.isWhitespace).reverse.dropWhile Char.isWhitespace).reverse⟩

/-- JavaScript `String.prototype.startsWith`, defined structurally. -/
def jsStartsWith (s pre : String) : Bool :=
  pre.data.isPrefixOf s.data

/-- `toFiniteNumber(v, def)` (votes.js, duplicateFlags.js, users.js `normalizeReputation`
guard): finite numbers pass through, anything else becomes the default. -/
def toFiniteNumber (v : JSNum) (d : ℚ) : ℚ := v.getD d

/-- An error built by `makeError(message, status)`: an `Error` with a `status` field. -/
structure JsError where
  message : String
  status : Nat
deriving Repr, DecidableEq

/-- `makeError(message, status = 400)`. -/
def makeError (message : String) (status : Nat := 400) : JsError :=
  { message := message, status := status }

/-- `assertNonEmptyString(v, name)`: trim, reject the empty result.  The `typeof` guard of
the source is absorbed by the call sites, which all pass `String(x ?? '')`. -/
def assertNonEmptyString (v : String) (name : String) : Except JsError String :=
  let s := jsTrim v
  if s = "" then .error (makeError (name ++ " cannot be empty") 400) else .ok s

/-- `assertMaxLen(s, max, name)` as used in votes.js / duplicateFlags.js. -/
def assertMaxLen (s : String) (maxLen : Nat) (name : String) : Except JsError String :=
  if s.length > maxLen then .error (makeError (name ++ " is too long") 400) else .ok s

/-- `toDateSafe(v)` of reportsAdmin.js: anything missing or invalid becomes epoch `0`. -/
def toDateSafe (v : Option Nat) : Nat := v.getD 0

/-- `ObjectId.isValid` restricted to the 24-hex-character string form, the only shape the
application ever round-trips through `String(_id)`. -/
def isValidObjectId (s : String) : Bool :=
  s.length == 24 && s.toList.all fun c =>
    c.isDigit || ('a' ≤ c && c ≤ 'f') || ('A' ≤ c && c ≤ 'F')

/-- Mongo `updateOne`: apply `f` to the first element matching `p`, keep the rest. -/
def updateFirst {α : Type} (p : α → Bool) (f : α → α) : List α → List α
  | [] => []
  | x :: xs => if p x then f x :: xs else x :: updateFirst p f xs

/-! ## Data model -/

/-- A document of the `votes` collection.  `userId` is `none` when the stored field is
missing or not a string (the merge loop guards with `typeof dv?.userId === 'string'`);
`weight` is `none` when the stored value is not a finite number. -/
structure VoteRow where
  vid : Nat
  reportId : String
  userId : Option String
  vote : Int
  weight : JSNum
  createdAt : Option Nat
  updatedAt : Option Nat
deriving Repr, DecidableEq

/-- A document of the `users` collection, restricted to the fields this core reads.
`reputation` is `none` when the field is missing or null. -/
structure UserRow where
  uid : String
  reputation : Option ℚ
deriving Repr, DecidableEq

/-- The cached `votes` block `updateReportVotes` persists on a report. -/
structure ReportVotesCache where
  upVote : Int
  downVote : Int
  voteCount : Int
  score : ℚ
  rawScore : Int
  weightedScore : ℚ
  upWeight : ℚ
  downWeight : ℚ
deriving Repr, DecidableEq

/-- A document of the `reports` collection, restricted to the fields the core touches.
`mid` is the stringified Mongo `_id` (used by the `_id` fallback lookups). -/
structure Report where
  mid : String
  reportId : String
  targetType : String
  targetId : String
  status : String
  mergedInto : Option String
  mergedFrom : List String
  moderatedAt : Option Nat
  updatedAt : Option Nat
  votes : Option ReportVotesCache
deriving Repr, DecidableEq

/-- A document of the `duplicate_flags` collection.  `canonicalReportId = none` means the
field is absent from the document (it is only written when the caller provides it);
`weight = none` means the field is absent (legacy row), handled by `$ifNull`. -/
structure FlagRow where
  reportId : String
  userId : String
  canonicalReportId : Option String
  weight : Option ℚ
  createdAt : Nat
  updatedAt : Nat
deriving Repr, DecidableEq

/-- The whole database.  `nextVid` supplies the `_id` of the next upserted vote row. -/
structure DB where
  users : List UserRow
  reports : List Report
  votes : List VoteRow
  duplicateFlags : List FlagRow
  nextVid : Nat
deriving Repr, DecidableEq

/-! ## users.js -/

namespace Users

def DEFAULT_REPUTATION : ℚ := 1

def MIN_REPUTATION : ℚ := 0

/-- `ensureObjectId(id, fieldName)`. -/
def ensureObjectId (id : String) (fieldName : String) : Except JsError String := do
  let s ← assertNonEmptyString id fieldName
  if isValidObjectId s then return s
  else throw (makeError (fieldName ++ " is not a valid ObjectId") 400)

/-- `normalizeReputation(value, def = DEFAULT_REPUTATION)`: non-finite/missing or negative
values fall back to the default. -/
def normalizeReputation (value : Option ℚ) (d : ℚ := DEFAULT_REPUTATION) : ℚ :=
  match value with
  | none => d
  | some n => if n < MIN_REPUTATION then d else n

/-- The sanitized user object returned to callers (only the fields the core reads). -/
structure SUser where
  uid : String
  reputation : ℚ
deriving Repr, DecidableEq

/-- `sanitizeUser` restricted to the fields this development uses: the reputation is
normalized to a finite non-negative value. -/
def sanitizeUser (u : UserRow) : SUser :=
  { uid := u.uid, reputation := normalizeReputation u.reputation }

/-- `getUserById(id)`: validate the id, look the user up, throw 404 when absent. -/
def getUserById (db : DB) (id : String) : Except JsError SUser := do
  let oid ← ensureObjectId id "userId"
  match db.users.find? (fun u => u.uid == oid) with
  | none => throw (makeError "User not found" 404)
  | some u => return sanitizeUser u

/-- Options object of `adjustReputation`.  `max = none` models an absent or null `max`;
`some v` models a provided value (`v : JSNum`, so `some none` is a provided non-finite
value such as `NaN`). -/
structure AdjustOptions where
  max : Option JSNum
deriving Repr, DecidableEq

/-- `adjustReputation(userId, delta, options)` (users.js).  Validation happens before any
storage access: invalid ObjectId, then zero/non-finite `delta`, then a provided
non-finite `options.max`.  The update itself is the atomic aggregation-pipeline
add-and-clamp `min(max?, max(MIN_REPUTATION, ($ifNull reputation default) + delta))`.
Returns the state at the moment of a throw alongside the result. -/
def adjustReputation (db : DB) (userId : String) (delta : JSNum)
    (options : AdjustOptions) (_now : Nat) : Except JsError SUser × DB :=
  match ensureObjectId userId "userId" with
  | .error e => (.error e, db)
  | .ok oid =>
    match delta with
    | none => (.error (makeError "delta must be a finite non-zero number" 400), db)
    | some d =>
      if d = 0 then (.error (makeError "delta must be a finite non-zero number" 400), db)
      else
        match options.max with
        | some none =>
          (.error (makeError "options.max must be a finite number when provided" 400), db)
        | maxProvided =>
          let maxNum : Option ℚ := match maxProvided with
            | some (some m) => some m
            | _ => none
          match db.users.find? (fun u => u.uid == oid) with
          | none => (.error (makeError "User not found" 404), db)
          | some u =>
            let upd : UserRow → UserRow := fun w =>
              let base := w.reputation.getD DEFAULT_REPUTATION
              let added := base + d
              let clamped := max MIN_REPUTATION added
              let nextRep := match maxNum with
                | some m => min m clamped
                | none => clamped
              { w with reputation := some nextRep }
            let db' := { db with users := updateFirst (fun w => w.uid == oid) upd db.users }
            (.ok (sanitizeUser (upd u)), db')

end Users

/-! ## votes.js -/

namespace Votes

def DEFAULT_WEIGHT : ℚ := 1

def normalizeReportId (reportId : String) : Except JsError String := do
  let r ← assertNonEmptyString reportId "reportId"
  assertMaxLen r 200 "reportId"

def normalizeUserId (userId : String) : Except JsError String := do
  let u ← assertNonEmptyString userId "userId"
  assertMaxLen u 200 "userId"

def normalizeVote (vote : Int) : Except JsError Int :=
  if vote ≠ 1 ∧ vote ≠ -1 then .error (makeError "vote must be 1 or -1" 400) else .ok vote

/-- `getVoteWeightForUser(userId)`: the user's (sanitized) current reputation, floored at
`DEFAULT_WEIGHT`. -/
def getVoteWeightForUser (db : DB) (userId : String) : Except JsError ℚ := do
  let user ← Users.getUserById db userId
  let rep := toFiniteNumber (some user.reputation) DEFAULT_WEIGHT
  return max DEFAULT_WEIGHT rep

/-- Return value of `castVote`. -/
structure CastVoteResult where
  reportId : String
  userId : String
  vote : Int
  weight : ℚ
deriving Repr, DecidableEq

/-- `castVote({reportId, userId, vote})`: validate, snapshot the weight from the user's
current reputation, then upsert the unique `(reportId, userId)` row — `$set` overwrites
`vote`/`weight`/`updatedAt`, `$setOnInsert` fills the identity fields on first insert. -/
def castVote (db : DB) (reportId userId : String) (vote : Int) (now : Nat) :
    Except JsError (DB × CastVoteResult) := do
  let rID ← normalizeReportId reportId
  let uID ← normalizeUserId userId
  let v ← normalizeVote vote
  let weight ← getVoteWeightForUser db uID
  let key : VoteRow → Bool := fun r => r.reportId == rID && r.userId == some uID
  let replaced :=
    updateFirst key
      (fun r => { r with vote := v, weight := some weight, updatedAt := some now })
      db.votes
  let inserted : VoteRow :=
    { vid := db.nextVid, reportId := rID, userId := some uID, vote := v,
      weight := some weight, createdAt := some now, updatedAt := some now }
  let db' :=
    match db.votes.find? key with
    | some _ => { db with votes := replaced }
    | none => { db with votes := db.votes ++ [inserted], nextVid := db.nextVid + 1 }
  return (db', { reportId := rID, userId := uID, vote := v, weight := weight })

/-- `removeVote(reportId, userId)`: idempotent `deleteOne`. -/
def removeVote (db : DB) (reportId userId : String) : Except JsError DB := do
  let rID ← normalizeReportId reportId
  let uID ← normalizeUserId userId
  return { db with votes :=
    db.votes.eraseP (fun r => r.reportId == rID && r.userId == some uID) }

/-- Aggregates returned by `getTotalVotes`. -/
structure VoteTotals where
  upVotes : Nat
  downVotes : Nat
  voteCount : Nat
  score : Int
  rawScore : Int
  uWeight : ℚ
  dWeight : ℚ
  weightedScore : ℚ
deriving Repr, DecidableEq

/-- The accumulator loop of `getTotalVotes` over the fetched docs:
`(upVotes, downVotes, uWeight, dWeight)`. -/
def tallyVotes (docs : List VoteRow) : Nat × Nat × ℚ × ℚ :=
  docs.foldl
    (fun acc doc =>
      let w := toFiniteNumber doc.weight DEFAULT_WEIGHT
      if doc.vote = 1 then (acc.1 + 1, acc.2.1, acc.2.2.1 + w, acc.2.2.2)
      else if doc.vote = -1 then (acc.1, acc.2.1 + 1, acc.2.2.1, acc.2.2.2 + w)
      else acc)
    (0, 0, 0, 0)

/-- `getTotalVotes(reportId)`: scan every vote row of the report and aggregate. -/
def getTotalVotes (db : DB) (reportId : String) : Except JsError VoteTotals := do
  let rID ← normalizeReportId reportId
  let docs := db.votes.filter (fun r => r.reportId == rID)
  let t := tallyVotes docs
  let upVotes := t.1
  let downVotes := t.2.1
  let uWeight := t.2.2.1
  let dWeight := t.2.2.2
  let rawScore : Int := (upVotes : Int) - (downVotes : Int)
  let weightedScore : ℚ := uWeight - dWeight
  return { upVotes := upVotes, downVotes := downVotes, voteCount := upVotes + downVotes,
           score := rawScore, rawScore := rawScore,
           uWeight := uWeight, dWeight := dWeight, weightedScore := weightedScore }

/-- `getUserVoteForReport(reportId, userId)`: `1`, `-1`, or `0`. -/
def getUserVoteForReport (db : DB) (reportId userId : String) : Except JsError Int := do
  let rID ← normalizeReportId reportId
  let uID ← normalizeUserId userId
  match db.votes.find? (fun r => r.reportId == rID && r.userId == some uID) with
  | none => return 0
  | some doc => if doc.vote = 1 then return 1 else if doc.vote = -1 then return -1 else return 0

end Votes

/-! ## data/reports.js (lookup and cached-totals writer used by the other modules) -/

namespace Reports

def normalizeReportId (reportId : String) : Except JsError String := do
  let id ← assertNonEmptyString reportId "reportId"
  if id.length > 200 then throw (makeError "reportId is too long" 400) else return id

/-- `getReportByReportId(reportId)`: look up by the custom `reportId`, fall back to the
Mongo `_id` when the input is a valid ObjectId, throw 404 otherwise.  `sanitizeReport`
only stringifies `_id`, so it is the identity on this model. -/
def getReportByReportId (db : DB) (reportId : String) : Except JsError Report := do
  let id ← normalizeReportId reportId
  let doc := db.reports.find? (fun r => r.reportId == id)
  let doc := match doc with
    | some d => some d
    | none =>
      if isValidObjectId id then db.reports.find? (fun r => r.mid == id) else none
  match doc with
  | none => throw (makeError "Report not found" 404)
  | some d => return d

/-- `updateReportVotes(reportIdOrMongoId, total)`: persist the cache block built from a
`getTotalVotes` result.  The `toSafeInt`/`toSafeNumber` coercions of the source are
identities here because every field of a `VoteTotals` is already a finite number. -/
def updateReportVotes (db : DB) (reportId : String) (total : Votes.VoteTotals)
    (now : Nat) : Except JsError DB := do
  let id ← normalizeReportId reportId
  let cache : ReportVotesCache :=
    { upVote := max 0 (total.upVotes : Int), downVote := max 0 (total.downVotes : Int),
      voteCount := max 0 (total.voteCount : Int),
      score := total.weightedScore, rawScore := total.rawScore,
      weightedScore := total.weightedScore,
      upWeight := max 0 total.uWeight, downWeight := max 0 total.dWeight }
  let upd : Report → Report := fun r =>
    { r with votes := some cache, updatedAt := some now }
  if (db.reports.find? (fun r => r.reportId == id)).isSome then
    return { db with reports := updateFirst (fun r => r.reportId == id) upd db.reports }
  else if isValidObjectId id && (db.reports.find? (fun r => r.mid == id)).isSome then
    return { db with reports := updateFirst (fun r => r.mid == id) upd db.reports }
  else throw (makeError "Report not found" 404)

end Reports

/-! ## data/duplicateFlags.js -/

namespace Flags

def DEFAULT_WEIGHT : ℚ := 1

def MAX_CANDIDATES : Nat := 5

def normalizeReportId (reportId : String) : Except JsError String := do
  let r ← assertNonEmptyString reportId "reportId"
  assertMaxLen r 200 "reportId"

def normalizeUserId (userId : String) : Except JsError String := do
  let u ← assertNonEmptyString userId "userId"
  assertMaxLen u 200 "userId"

/-- `normalizeOptionalCanonicalReportId(canonicalReportId)` for a *provided* property.
The argument models the raw JS value: `none` is `undefined` (returned as-is, and later
coalesced to `''` by `flagDuplicate`), `some v` is a string-like value (`null` is
`some ""` because `String(null ?? '') = ''`).  Result: `none` = JS `undefined`,
`some ""` = clear, `some s` = value to validate. -/
def normalizeOptionalCanonicalReportId (c : Option String) :
    Except JsError (Option String) :=
  match c with
  | none => .ok none
  | some v =>
    let raw := jsTrim v
    if raw = "" then .ok (some "")
    else (assertMaxLen raw 200 "canonicalReportId").map some

/-- `getWeightForUser(userId)` (duplicateFlags.js): same computation as
`getVoteWeightForUser` — current sanitized reputation floored at `DEFAULT_WEIGHT`. -/
def getWeightForUser (db : DB) (userId : String) : Except JsError ℚ := do
  let user ← Users.getUserById db userId
  let rep := toFiniteNumber (some user.reputation) DEFAULT_WEIGHT
  return max DEFAULT_WEIGHT rep

/-- `sameTarget(a, b)`. -/
def sameTarget (a b : Report) : Bool :=
  a.targetType == b.targetType && a.targetId == b.targetId

/-- `resolveStableReportId(reportIdLike)`: resolve an input (custom reportId or Mongo
`_id`) into the report and its stable custom `reportId`. -/
def resolveStableReportId (db : DB) (reportIdLike : String) :
    Except JsError (Report × String) := do
  let input ← normalizeReportId reportIdLike
  let report ← Reports.getReportByReportId db input
  let stableId := jsTrim report.reportId
  if stableId = "" then throw (makeError "Report record is missing reportId" 500)
  else do
    let _ ← assertMaxLen stableId 200 "reportId"
    return (report, stableId)

/-- `canonicalizeReportId(reportIdLike, {validate})`: inputs already in the app's stable
`"R..."` format skip the existence check unless validation is forced. -/
def canonicalizeReportId (db : DB) (reportIdLike : String) (validate : Bool) :
    Except JsError String := do
  let raw ← normalizeReportId reportIdLike
  if jsStartsWith raw "R" && !validate then return raw
  else do
    let res ← resolveStableReportId db raw
    return res.2

/-- Parameters of `flagDuplicate`.  `canonicalReportId`: outer `none` = the property is
absent from the params object (`hasOwnProperty` is false); `some c` = the property is
present with raw value `c` (see `normalizeOptionalCanonicalReportId`). -/
structure FlagParams where
  reportId : String
  userId : String
  canonicalReportId : Option (Option String)
deriving Repr, DecidableEq

/-- Return value of `flagDuplicate`. -/
structure FlagResult where
  reportId : String
  userId : String
  canonicalReportId : String
deriving Repr, DecidableEq

/-- The canonical-candidate resolution/validation block of `flagDuplicate`
(duplicateFlags.js lines 427-447): when the caller provided a non-empty
`canonicalReportId`, it must resolve to an existing report that differs from the
flagged one and shares its target; an explicit empty value (and the not-provided case)
resolves to `''`. -/
def resolveCanonicalParam (db : DB) (baseReport : Report) (rID : String)
    (canonicalProvided : Bool) (cInput : String) : Except JsError String :=
  if canonicalProvided then
    if cInput ≠ "" then do
      let (canonicalReport, stableId) ← resolveStableReportId db cInput
      if stableId = rID then
        throw (makeError "canonicalReportId cannot equal reportId" 400)
      else if !sameTarget baseReport canonicalReport then
        throw (makeError "canonicalReportId must reference a report on the same target" 400)
      else return stableId
    else return ""
  else return ""

/-- `flagDuplicate(params)`: upsert the `(reportId, userId)` duplicate flag.
Validation and canonical resolution happen before any write, so the state at a throw is
the input state.  The stored `canonicalReportId` is only touched when the caller provided
the property; the weight snapshot is taken only when the row is first inserted. -/
def flagDuplicate (db : DB) (params : FlagParams) (now : Nat) :
    Except JsError FlagResult × DB :=
  match normalizeUserId params.userId with
  | .error e => (.error e, db)
  | .ok uID =>
    match resolveStableReportId db params.reportId with
    | .error e => (.error e, db)
    | .ok (baseReport, rID) =>
      let canonicalProvided := params.canonicalReportId.isSome
      match (match params.canonicalReportId with
             | some c => normalizeOptionalCanonicalReportId c
             | none => .ok none) with
      | .error e => (.error e, db)
      | .ok canonicalNormalized =>
        let cInput := canonicalNormalized.getD ""
        match resolveCanonicalParam db baseReport rID canonicalProvided cInput with
        | .error e => (.error e, db)
        | .ok canonicalStableId =>
          let key : FlagRow → Bool := fun f => f.reportId == rID && f.userId == uID
          match db.duplicateFlags.find? key with
          | some existing =>
            let flags' := updateFirst key
              (fun f =>
                if canonicalProvided then
                  { f with updatedAt := now, canonicalReportId := some canonicalStableId }
                else { f with updatedAt := now })
              db.duplicateFlags
            let ret := if canonicalProvided then canonicalStableId
                       else jsTrim (existing.canonicalReportId.getD "")
            (.ok { reportId := rID, userId := uID, canonicalReportId := ret },
             { db with duplicateFlags := flags' })
          | none =>
            match getWeightForUser db uID with
            | .error e => (.error e, db)
            | .ok weight =>
              let newFlag : FlagRow :=
                { reportId := rID, userId := uID,
                  canonicalReportId :=
                    if canonicalProvided then some canonicalStableId else none,
                  weight := some weight, createdAt := now, updatedAt := now }
              (.ok { reportId := rID, userId := uID, canonicalReportId := canonicalStableId },
               { db with duplicateFlags := db.duplicateFlags ++ [newFlag] })

/-- `removeDuplicateFlag(reportId, userId, options)`: idempotent `deleteOne`. -/
def removeDuplicateFlag (db : DB) (reportId userId : String)
    (validateReport : Bool := false) : Except JsError DB := do
  let rID ← canonicalizeReportId db reportId validateReport
  let uID ← normalizeUserId userId
  return { db with duplicateFlags :=
    db.duplicateFlags.eraseP (fun f => f.reportId == rID && f.userId == uID) }

/-- One entry of the `candidates` facet of the aggregation pipeline. -/
structure Candidate where
  canonicalReportId : String
  count : Nat
  weight : ℚ
deriving Repr, DecidableEq

/-- The `$sort: { weight: -1, count: -1, _id: 1 }` key of a candidate, as a
lexicographic triple: weight descending, then count descending, then candidate id
ascending (ids compare by code point, which is MongoDB's byte order on the ASCII
report ids this application generates). -/
def candidateKey (a : Candidate) : Lex (ℚ × Lex (Int × List Nat)) :=
  toLex (-a.weight, toLex (-(a.count : Int), a.canonicalReportId.data.map Char.toNat))

/-- The `$sort` stage's order as a boolean relation for sorting. -/
def candidateLE (a b : Candidate) : Bool := decide (candidateKey a ≤ candidateKey b)

/-- Return value of `getDuplicateTotals`. -/
structure DupTotals where
  flagCount : Nat
  weightTotal : ℚ
  topCandidateReportId : String
  topCandidateCount : Nat
  topCandidateWeight : ℚ
  candidates : List Candidate
deriving Repr, DecidableEq

/-- The `$match`/`$project` stages of the pipeline: the report's flags, each reduced to
`(canonicalReportId, $ifNull weight DEFAULT_WEIGHT)`. -/
def projectFlags (db : DB) (rID : String) : List (Option String × ℚ) :=
  (db.duplicateFlags.filter (fun f => f.reportId == rID)).map
    (fun f => (f.canonicalReportId, f.weight.getD DEFAULT_WEIGHT))

/-- A projected flag enters the `candidates` facet iff its `canonicalReportId` is a
string different from `''` (the `$match: { canonicalReportId: { $type: 'string', $ne: '' } }`
stage). -/
def eligibleCanonical (p : Option String × ℚ) : Bool :=
  match p.1 with
  | some s => s ≠ ""
  | none => false

/-- The full `$group` output of the candidates facet (the `grouped` stage of
`getDuplicateTotals`): one aggregate per distinct non-empty canonical id among the
report's eligible flags, which the `$sort`/`$limit` stages then rank and truncate. -/
def groupedCandidates (db : DB) (rID : String) : List Candidate :=
  ((((projectFlags db rID).filter eligibleCanonical).map (fun p => p.1.getD "")).dedup).map
    (fun k =>
      { canonicalReportId := k,
        count := (((projectFlags db rID).filter eligibleCanonical).filter (fun p => p.1 == some k)).length,
        weight := ((((projectFlags db rID).filter eligibleCanonical).filter (fun p => p.1 == some k)).map (fun p => p.2)).sum })

/-- `getDuplicateTotals(reportId, options)`: totals over every flag of the report, plus
the canonical-candidate ranking.  The `$group` stage is modelled by grouping over the
deduplicated canonical ids; its unspecified output order is irrelevant because the
subsequent `$sort` is a total order on the (distinct) group keys. -/
def getDuplicateTotals (db : DB) (reportId : String)
    (validateReport : Bool := false) : Except JsError DupTotals := do
  let rID ← canonicalizeReportId db reportId validateReport
  let projected := projectFlags db rID
  let flagCount := projected.length
  let weightTotal := (projected.map (fun p => p.2)).sum
  let eligible := projected.filter eligibleCanonical
  let keys := (eligible.map (fun p => p.1.getD "")).dedup
  let grouped := keys.map (fun k =>
    let rows := eligible.filter (fun p => p.1 == some k)
    { canonicalReportId := k, count := rows.length,
      weight := (rows.map (fun p => p.2)).sum : Candidate })
  let candidates := (grouped.mergeSort candidateLE).take MAX_CANDIDATES
  let top := candidates.head?
  return { flagCount := flagCount, weightTotal := weightTotal,
           topCandidateReportId := (top.map (fun t => t.canonicalReportId)).getD "",
           topCandidateCount := (top.map (fun t => t.count)).getD 0,
           topCandidateWeight := (top.map (fun t => t.weight)).getD 0,
           candidates := candidates }

/-- Return value of `getUserDuplicateFlag`. -/
structure UserFlagState where
  flagged : Bool
  canonicalReportId : String
deriving Repr, DecidableEq

/-- `getUserDuplicateFlag(reportId, userId, options)`. -/
def getUserDuplicateFlag (db : DB) (reportId userId : String)
    (validateReport : Bool := false) : Except JsError UserFlagState := do
  let rID ← canonicalizeReportId db reportId validateReport
  let uID ← normalizeUserId userId
  match db.duplicateFlags.find? (fun f => f.reportId == rID && f.userId == uID) with
  | none => return { flagged := false, canonicalReportId := "" }
  | some doc =>
    return { flagged := true, canonicalReportId := jsTrim (doc.canonicalReportId.getD "") }

end Flags

/-! ## data/reportsAdmin.js -/

namespace Admin

/-- `normalizeReportId` of reportsAdmin.js: trim, reject empty and over-long ids. -/
def normalizeReportId (reportId : String) : Except JsError String :=
  let id := jsTrim reportId
  if id = "" then .error (makeError "reportId cannot be empty" 400)
  else if id.length > 200 then .error (makeError "reportId is too long" 400)
  else .ok id

/-- The `voteMoveSummary` counters of `mergeDuplicateReports`. -/
structure MoveCounters where
  moved : Nat
  overwritten : Nat
  deleted : Nat
  invalid : Nat
deriving Repr, DecidableEq

/-- Return value of `mergeDuplicateReports`. -/
structure MergeResult where
  keepReportId : String
  dupReportId : String
  voteMoveSummary : MoveCounters
  totals : Votes.VoteTotals
deriving Repr, DecidableEq

/-- One iteration of the vote-migration loop of `mergeDuplicateReports` (reportsAdmin.js,
the body of `for (const dv of dupVotes)`), acting on the live `votes` collection.
The `catch` branch for Mongo duplicate-key error 11000 handles a concurrent-writer race
and is unreachable in this sequential model: the `findOne` on the preceding line has just
returned no conflicting row, so the re-homing `updateOne` cannot violate the unique
`(reportId, userId)` index. -/
def migrateVoteStep (keepId : String) (now : Nat)
    (acc : List VoteRow × MoveCounters) (dv : VoteRow) : List VoteRow × MoveCounters :=
  let votes := acc.1
  let c := acc.2
  let userId := match dv.userId with
    | some s => jsTrim s
    | none => ""
  if userId = "" then
    (votes.eraseP (fun r => r.vid == dv.vid), { c with invalid := c.invalid + 1 })
  else if dv.vote ≠ 1 ∧ dv.vote ≠ -1 then
    (votes.eraseP (fun r => r.vid == dv.vid), { c with invalid := c.invalid + 1 })
  else
    let dvWeight := toFiniteNumber dv.weight 1
    match votes.find? (fun r => r.reportId == keepId && r.userId == some userId) with
    | none =>
      (updateFirst (fun r => r.vid == dv.vid)
        (fun r => { r with reportId := keepId, updatedAt := some (dv.updatedAt.getD now) })
        votes,
       { c with moved := c.moved + 1 })
    | some existing =>
      let dvT := toDateSafe (dv.updatedAt <|> dv.createdAt)
      let exT := toDateSafe (existing.updatedAt <|> existing.createdAt)
      let overwriteRow : VoteRow → VoteRow := fun r =>
        { r with vote := dv.vote, weight := some dvWeight,
                 updatedAt := some (dv.updatedAt.getD now) }
      let votes1 :=
        if exT < dvT then
          updateFirst (fun r => r.vid == existing.vid) overwriteRow votes
        else votes
      let c1 := if exT < dvT then { c with overwritten := c.overwritten + 1 } else c
      (votes1.eraseP (fun r => r.vid == dv.vid), { c1 with deleted := c1.deleted + 1 })

/-- `mergeDuplicateReports(keepReportId, dupReportId)`: guard phase (id validation,
existence, same-target, merge-chain checks) with no writes, then the vote-migration
loop over a snapshot of the duplicate's vote rows, then — only after migration — the
status/annotation updates on both reports and the cache refresh.  The second component
of the result is the database at the moment of a throw, or the final database. -/
def mergeDuplicateReports (db : DB) (keepReportId dupReportId : String) (now : Nat) :
    Except JsError MergeResult × DB :=
  match normalizeReportId keepReportId with
  | .error e => (.error e, db)
  | .ok keepId =>
  match normalizeReportId dupReportId with
  | .error e => (.error e, db)
  | .ok dupId =>
  if keepId = dupId then
    (.error (makeError "keepReportId and dupReportId must be different" 400), db)
  else
  match db.reports.find? (fun r => r.reportId == keepId) with
  | none => (.error (makeError ("Keep report not found: " ++ keepId) 404), db)
  | some keep =>
  match db.reports.find? (fun r => r.reportId == dupId) with
  | none => (.error (makeError ("Duplicate report not found: " ++ dupId) 404), db)
  | some dup =>
  if keep.targetType ≠ dup.targetType ∨ keep.targetId ≠ dup.targetId then
    (.error (makeError
      "Cannot merge reports with different targets (targetType/targetId must match)." 400),
     db)
  else
  if (match dup.mergedInto with
      | some m => m != "" && m != keepId
      | none => false : Bool) then
    (.error (makeError
      ("Duplicate report is already merged into " ++ (dup.mergedInto.getD "")) 409), db)
  else
  if (match keep.mergedInto with
      | some m => m != ""
      | none => false : Bool) then
    (.error (makeError
      "Keep report is itself marked as merged; choose a canonical keep report." 409),
     db)
  else
    let dupVotes := db.votes.filter (fun r => r.reportId == dupId)
    let migrated := dupVotes.foldl (migrateVoteStep keepId now)
      (db.votes, { moved := 0, overwritten := 0, deleted := 0, invalid := 0 })
    let hideDup : Report → Report := fun r =>
      { r with status := "hidden", mergedInto := some keepId,
               moderatedAt := some now, updatedAt := some now }
    let annotateKeep : Report → Report := fun r =>
      { r with
          mergedFrom := if r.mergedFrom.contains dupId then r.mergedFrom
                        else r.mergedFrom ++ [dupId],
          updatedAt := some now }
    let reports1 := updateFirst (fun r => r.reportId == dupId) hideDup db.reports
    let reports2 := updateFirst (fun r => r.reportId == keepId) annotateKeep reports1
    let db1 : DB := { db with votes := migrated.1, reports := reports2 }
    match Votes.getTotalVotes db1 keepId with
    | .error e => (.error e, db1)
    | .ok totals =>
      match Reports.updateReportVotes db1 keepId totals now with
      | .error e => (.error e, db1)
      | .ok db2 =>
        (.ok { keepReportId := keepId, dupReportId := dupId,
               voteMoveSummary := migrated.2, totals := totals },
         db2)

end Admin

/-! ## Auxiliary notions used by the verification -/

/-- A fully normalized id string — exactly the shape `normalizeReportId` returns:
already trimmed, non-empty, at most 200 characters. -/
def NormId (s : String) : Prop := jsTrim s = s ∧ s ≠ "" ∧ s.length ≤ 200

instance (s : String) : Decidable (NormId s) := by
  unfold NormId; infer_instance

/-- The user id the migration loop extracts from a dup-side vote row
(`typeof dv?.userId === 'string' ? dv.userId.trim() : ''`). -/
def dvUser (dv : VoteRow) : String :=
  match dv.userId with
  | some s => jsTrim s
  | none => ""

/-- A dup-side row that passes the validity checks of the migration loop. -/
def ValidDupVote (dv : VoteRow) : Prop :=
  dvUser dv ≠ "" ∧ (dv.vote = 1 ∨ dv.vote = -1)

instance (dv : VoteRow) : Decidable (ValidDupVote dv) := by
  unfold ValidDupVote; infer_instance

/-- A vote row whose stored `userId` is a non-empty already-trimmed string — the shape
`castVote` always writes (it stores the output of `normalizeUserId`). -/
def TrimmedUser (r : VoteRow) : Prop := ∃ u, r.userId = some u ∧ jsTrim u = u ∧ u ≠ ""

/-- Re-homing of a migrated vote row: the `$set { reportId, updatedAt }` of the
no-conflict branch of the migration loop. -/
def moveRow (keepId : String) (now : Nat) (dv : VoteRow) : VoteRow :=
  { dv with reportId := keepId, updatedAt := some (dv.updatedAt.getD now) }

/-- The keep-side overwrite of the conflict branch of the migration loop. -/
def overwriteFrom (dv : VoteRow) (now : Nat) (r : VoteRow) : VoteRow :=
  { r with vote := dv.vote, weight := some (toFiniteNumber dv.weight 1),
           updatedAt := some (dv.updatedAt.getD now) }

/-- The value `adjustReputation` stores for a user with current base reputation `base`
when adding `delta` under an optional max clamp: `min(max?, max(0, base + delta))`. -/
def clampedReputation (omax : Option JSNum) (base d : ℚ) : ℚ :=
  match omax.join with
  | some m => min m (max Users.MIN_REPUTATION (base + d))
  | none => max Users.MIN_REPUTATION (base + d)

/-- The `(reportId, userId)` key predicate on duplicate-flag rows. -/
def flagKey (rID uID : String) (f : FlagRow) : Bool :=
  f.reportId == rID && f.userId == uID

/-- The update `flagDuplicate` applies to an existing row when `canonicalReportId` was
not provided: only `updatedAt` changes. -/
def touchFlag (now : Nat) (f : FlagRow) : FlagRow := { f with updatedAt := now }

/-- The update `flagDuplicate` applies to an existing row when `canonicalReportId` was
provided: `updatedAt` and the stored canonical id change. -/
def setCanonical (now : Nat) (c : String) (f : FlagRow) : FlagRow :=
  { f with updatedAt := now, canonicalReportId := some c }

/-- The per-row update `adjustReputation` performs on the matched user. -/
def applyAdjust (omax : Option JSNum) (d : ℚ) (w : UserRow) : UserRow :=
  let rep := clampedReputation omax (w.reputation.getD Users.DEFAULT_REPUTATION) d
  { w with reputation := some rep }

/-- Concrete database for the `mergeDuplicateReports_guards` witness: reports `K`
(clean) and `D` (already merged into `X`) on the same target. -/
def mergeGuardsDB : DB :=
  ⟨[], [⟨"m1", "K", "post", "p1", "active", none, [], none, none, none⟩,
        ⟨"m2", "D", "post", "p1", "active", some "X", [], none, none, none⟩], [], [], 0⟩

/-- Keep-side vote row of the concrete merge-conflict scenario: user `u1` voted `+1`
with weight `2` on report `K`, last updated at `10`. -/
def exConflict : VoteRow := ⟨1, "K", some "u1", 1, some 2, some 5, some 10⟩

/-- Dup-side vote row of the concrete merge-conflict scenario: the same user `u1`
voted `-1` with weight `3` on report `D`, last updated at `20` (more recent). -/
def dvConflict : VoteRow := ⟨2, "D", some "u1", -1, some 3, some 6, some 20⟩

/-- Concrete database for the merge-conflict scenario: reports `K` and `D` on the same
target, with one vote on each side by the same user. -/
def mergeConflictDB : DB :=
  ⟨[], [⟨"m1", "K", "post", "p1", "active", none, [], none, none, none⟩,
        ⟨"m2", "D", "post", "p1", "active", none, [], none, none, none⟩],
   [exConflict, dvConflict], [], 0⟩

/-- Concrete database for the merge-conservation witness: reports `K` and `D` on the
same target, with one vote on each side by two different users. -/
def mergeMoveDB : DB :=
  ⟨[], [⟨"m1", "K", "post", "p1", "active", none, [], none, none, none⟩,
        ⟨"m2", "D", "post", "p1", "active", none, [], none, none, none⟩],
   [⟨1, "K", some "u1", 1, some 2, some 5, some 10⟩,
    ⟨2, "D", some "u2", -1, some 3, some 6, some 20⟩], [], 0⟩

/-!
# Theorems

First a small toolbox about the Mongo-style list operations, then the claim theorems.
-/

section ListToolbox

variable {α β : Type}

theorem updateFirst_eq_of_forall {p : α → Bool} (f : α → α) {l : List α}
    (h : ∀ x ∈ l, p x = false) : updateFirst p f l = l := by
  induction l with
  | nil => rfl
  | cons x xs ih =>
    have hx := h x (List.mem_cons_self x xs)
    simp [updateFirst, hx, ih fun y hy => h y (List.mem_cons_of_mem x hy)]

theorem updateFirst_append_cons {p : α → Bool} (f : α → α) {u : List α} (a : α)
    (v : List α) (hu : ∀ x ∈ u, p x = false) (ha : p a = true) :
    updateFirst p f (u ++ a :: v) = u ++ f a :: v := by
  induction u with
  | nil => simp [updateFirst, ha]
  | cons x xs ih =>
    have hx := hu x (List.mem_cons_self x xs)
    simp [updateFirst, hx, ih fun y hy => hu y (List.mem_cons_of_mem x hy)]

theorem eraseP_append_cons {p : α → Bool} {u : List α} (a : α) (v : List α)
    (hu : ∀ x ∈ u, p x = false) (ha : p a = true) :
    (u ++ a :: v).eraseP p = u ++ v := by
  rw [List.eraseP_append_right _ (by simpa using hu), List.eraseP_cons_of_pos ha]

theorem map_updateFirst {g : α → β} {p : α → Bool} {f : α → α}
    (h : ∀ x, g (f x) = g x) (l : List α) :
    (updateFirst p f l).map g = l.map g := by
  induction l with
  | nil => rfl
  | cons x xs ih =>
    by_cases hx : p x
    · simp [updateFirst, hx, h x]
    · simp [updateFirst, hx, ih]

theorem mem_updateFirst {p : α → Bool} {f : α → α} {l : List α} {x : α}
    (hx : x ∈ updateFirst p f l) : x ∈ l ∨ ∃ y ∈ l, p y = true ∧ x = f y := by
  induction l with
  | nil => cases hx
  | cons z zs ih =>
    by_cases hz : p z
    · simp only [updateFirst, hz, if_true] at hx
      rcases List.mem_cons.1 hx with h | h
      · exact .inr ⟨z, List.mem_cons_self z zs, hz, h⟩
      · exact .inl (List.mem_cons_of_mem z h)
    · simp only [updateFirst, if_neg hz] at hx
      rcases List.mem_cons.1 hx with h | h
      · exact .inl (h ▸ List.mem_cons_self z zs)
      · rcases ih h with h' | ⟨y, hy, hpy, hxy⟩
        · exact .inl (List.mem_cons_of_mem z h')
        · exact .inr ⟨y, List.mem_cons_of_mem z hy, hpy, hxy⟩

theorem filter_updateFirst_invisible {q p : α → Bool} {f : α → α} {l : List α}
    (h : ∀ x ∈ l, q x = true → p x = false ∧ p (f x) = false) :
    (updateFirst q f l).filter p = l.filter p := by
  induction l with
  | nil => rfl
  | cons x xs ih =>
    by_cases hx : q x
    · have hh := h x (List.mem_cons_self x xs) hx
      simp [updateFirst, hx, List.filter_cons, hh.1, hh.2]
    · have ih' := ih fun y hy => h y (List.mem_cons_of_mem x hy)
      by_cases hpx : p x
      · simp [updateFirst, hx, List.filter_cons, hpx, ih']
      · simp [updateFirst, hx, List.filter_cons, hpx, ih']

theorem find?_updateFirst_self {α : Type} {p : α → Bool} {f : α → α} {l : List α}
    {a : α} (h : l.find? p = some a) (hf : ∀ x, p x = true → p (f x) = true) :
    (updateFirst p f l).find? p = some (f a) := by
  induction l with
  | nil => cases h
  | cons x xs ih =>
    by_cases hx : p x
    · rw [List.find?_cons_of_pos _ hx] at h
      cases h
      simp [updateFirst, hx, List.find?_cons_of_pos _ (hf _ hx)]
    · rw [List.find?_cons_of_neg _ hx] at h
      simp [updateFirst, hx, List.find?_cons_of_neg _ hx, ih h]

end ListToolbox

/-! ## Claim C10 — `adjustReputation` input validation and clamped update -/

/-- **C10.**  `adjustReputation(userId, delta, options?)` rejects a zero delta and any
non-finite delta with `InvalidArgument` (status 400) before touching storage (the
returned state is the input state, never a silent no-op), likewise rejects a provided
non-finite `options.max`, and only for a finite non-zero delta performs the
add-and-clamp update `min(max?, max(0, reputation + delta))` on the stored user. -/
theorem adjustReputation_validation (db : DB) (userId : String) (delta : JSNum)
    (options : Users.AdjustOptions) (now : Nat) (oid : String)
    (hoid : Users.ensureObjectId userId "userId" = .ok oid) :
    ((delta = none ∨ delta = some 0) →
      Users.adjustReputation db userId delta options now =
        (.error (makeError "delta must be a finite non-zero number" 400), db)) ∧
    (options.max = some none → ∀ d : ℚ, delta = some d → d ≠ 0 →
      Users.adjustReputation db userId delta options now =
        (.error (makeError "options.max must be a finite number when provided" 400), db)) ∧
    (∀ d : ℚ, delta = some d → d ≠ 0 → options.max ≠ some none →
      ∀ u, db.users.find? (fun w => w.uid == oid) = some u →
        ∃ db',
          Users.adjustReputation db userId delta options now =
            (.ok { uid := u.uid, reputation := Users.normalizeReputation
                     (some (clampedReputation options.max
                       (u.reputation.getD Users.DEFAULT_REPUTATION) d)) },
             db') ∧
          db'.users.find? (fun w => w.uid == oid) =
            some { u with reputation := some (clampedReputation options.max
                     (u.reputation.getD Users.DEFAULT_REPUTATION) d) } ∧
          db'.reports = db.reports ∧ db'.votes = db.votes ∧
          db'.duplicateFlags = db.duplicateFlags) := by
  obtain ⟨omax⟩ := options
  refine ⟨?_, ?_, ?_⟩
  · rintro (rfl | rfl) <;> simp [Users.adjustReputation, hoid]
  · rintro hmax d rfl hd
    simp only at hmax
    subst hmax
    simp [Users.adjustReputation, hoid, hd]
  · rintro d rfl hd hmax u hu
    simp only [ne_eq] at hmax
    match omax with
    | some none => exact absurd rfl hmax
    | none =>
      refine ⟨{ db with users := updateFirst (fun w => w.uid == oid) (applyAdjust none d) db.users },
        ?_, ?_, rfl, rfl, rfl⟩
      · simp [Users.adjustReputation, hoid, hd, hu, Users.sanitizeUser,
              applyAdjust, clampedReputation, Option.join]
        rfl
      · have h2 := find?_updateFirst_self (f := applyAdjust none d) hu
          (by intro x hx; simpa [applyAdjust] using hx)
        simpa [applyAdjust] using h2
    | some (some m) =>
      refine ⟨{ db with users := updateFirst (fun w => w.uid == oid) (applyAdjust (some (some m)) d) db.users },
        ?_, ?_, rfl, rfl, rfl⟩
      · simp [Users.adjustReputation, hoid, hd, hu, Users.sanitizeUser,
              applyAdjust, clampedReputation, Option.join]
        rfl
      · have h2 := find?_updateFirst_self (f := applyAdjust (some (some m)) d) hu
          (by intro x hx; simpa [applyAdjust] using hx)
        simpa [applyAdjust] using h2

/-- A normalized id passes `normalizeReportId` of votes.js unchanged. -/
theorem votes_normalizeReportId_of_norm {s : String} (h : NormId s) :
    Votes.normalizeReportId s = .ok s := by
  obtain ⟨h1, h2, h3⟩ := h
  simp [Votes.normalizeReportId, assertNonEmptyString, h1, h2, assertMaxLen,
        Nat.not_lt.2 h3, bind, Except.bind]

/-- A normalized id passes `normalizeUserId` of votes.js unchanged. -/
theorem votes_normalizeUserId_of_norm {s : String} (h : NormId s) :
    Votes.normalizeUserId s = .ok s := by
  obtain ⟨h1, h2, h3⟩ := h
  simp [Votes.normalizeUserId, assertNonEmptyString, h1, h2, assertMaxLen,
        Nat.not_lt.2 h3, bind, Except.bind]

/-- Closed witness for `adjustReputation_validation`: a concrete user, a zero delta, a
`NaN` max, and a successful `+3/2` adjustment clamped below a max of `2`. -/
theorem adjustReputation_validation_witness :
    (Users.adjustReputation
        { users := [{ uid := "aaaaaaaaaaaaaaaaaaaaaaaa", reputation := some 1 }],
          reports := [], votes := [], duplicateFlags := [], nextVid := 0 }
        "aaaaaaaaaaaaaaaaaaaaaaaa" (some 0) { max := none } 5 =
      (.error (makeError "delta must be a finite non-zero number" 400),
       { users := [{ uid := "aaaaaaaaaaaaaaaaaaaaaaaa", reputation := some 1 }],
         reports := [], votes := [], duplicateFlags := [], nextVid := 0 })) ∧
    (∃ db', Users.adjustReputation
        { users := [{ uid := "aaaaaaaaaaaaaaaaaaaaaaaa", reputation := some 1 }],
          reports := [], votes := [], duplicateFlags := [], nextVid := 0 }
        "aaaaaaaaaaaaaaaaaaaaaaaa" (some (3/2)) { max := some (some 2) } 5 =
      (.ok { uid := "aaaaaaaaaaaaaaaaaaaaaaaa",
             reputation := Users.normalizeReputation (some (clampedReputation
               (some (some 2)) ((some (1 : ℚ)).getD Users.DEFAULT_REPUTATION) (3/2))) },
       db') ∧
      db'.users.find? (fun w => w.uid == "aaaaaaaaaaaaaaaaaaaaaaaa") =
        some { uid := "aaaaaaaaaaaaaaaaaaaaaaaa",
               reputation := some (clampedReputation (some (some 2))
                 ((some (1 : ℚ)).getD Users.DEFAULT_REPUTATION) (3/2)) }) := by
  have h1 := adjustReputation_validation
    { users := [{ uid := "aaaaaaaaaaaaaaaaaaaaaaaa", reputation := some 1 }],
      reports := [], votes := [], duplicateFlags := [], nextVid := 0 }
    "aaaaaaaaaaaaaaaaaaaaaaaa" (some 0) { max := none } 5 "aaaaaaaaaaaaaaaaaaaaaaaa"
    (by decide)
  have h3 := adjustReputation_validation
    { users := [{ uid := "aaaaaaaaaaaaaaaaaaaaaaaa", reputation := some 1 }],
      reports := [], votes := [], duplicateFlags := [], nextVid := 0 }
    "aaaaaaaaaaaaaaaaaaaaaaaa" (some (3/2)) { max := some (some 2) } 5
    "aaaaaaaaaaaaaaaaaaaaaaaa" (by decide)
  refine ⟨h1.1 (.inr rfl), ?_⟩
  obtain ⟨db', hrun, hfind, -, -, -⟩ := h3.2.2 (3/2) rfl (by norm_num) (by simp)
    { uid := "aaaaaaaaaaaaaaaaaaaaaaaa", reputation := some 1 } (by decide)
  exact ⟨db', hrun, hfind⟩

/-! ## Claim C6 — `getTotalVotes` formulas -/

/-- The accumulating loop of `getTotalVotes`, characterized against filters and sums. -/
theorem tallyVotes_go (docs : List VoteRow) (a b : Nat) (c d : ℚ) :
    docs.foldl
      (fun acc doc =>
        let w := toFiniteNumber doc.weight Votes.DEFAULT_WEIGHT
        if doc.vote = 1 then (acc.1 + 1, acc.2.1, acc.2.2.1 + w, acc.2.2.2)
        else if doc.vote = -1 then (acc.1, acc.2.1 + 1, acc.2.2.1, acc.2.2.2 + w)
        else acc)
      (a, b, c, d) =
    (a + (docs.filter (fun r => r.vote == 1)).length,
     b + (docs.filter (fun r => r.vote == -1)).length,
     c + ((docs.filter (fun r => r.vote == 1)).map
            (fun r => toFiniteNumber r.weight Votes.DEFAULT_WEIGHT)).sum,
     d + ((docs.filter (fun r => r.vote == -1)).map
            (fun r => toFiniteNumber r.weight Votes.DEFAULT_WEIGHT)).sum) := by
  induction docs generalizing a b c d with
  | nil => simp
  | cons doc rest ih =>
    by_cases h1 : doc.vote = 1
    · simp [List.foldl_cons, h1, ih, List.filter_cons]
      constructor
      · omega
      · ring
    · by_cases h2 : doc.vote = -1
      · simp [List.foldl_cons, h1, h2, ih, List.filter_cons]
        constructor
        · omega
        · ring
      · simp [List.foldl_cons, h1, h2, ih, List.filter_cons]

/-- `tallyVotes` in closed form. -/
theorem tallyVotes_spec (docs : List VoteRow) :
    Votes.tallyVotes docs =
    ((docs.filter (fun r => r.vote == 1)).length,
     (docs.filter (fun r => r.vote == -1)).length,
     ((docs.filter (fun r => r.vote == 1)).map
        (fun r => toFiniteNumber r.weight Votes.DEFAULT_WEIGHT)).sum,
     ((docs.filter (fun r => r.vote == -1)).map
        (fun r => toFiniteNumber r.weight Votes.DEFAULT_WEIGHT)).sum) := by
  have h := tallyVotes_go docs 0 0 0 0
  simpa [Votes.tallyVotes] using h

/-- `getTotalVotes` on a normalized id, in closed form. -/
theorem getTotalVotes_eq (db : DB) {rID : String} (h : NormId rID) :
    Votes.getTotalVotes db rID = .ok
      { upVotes := ((db.votes.filter (fun r => r.reportId == rID)).filter
          (fun r => r.vote == 1)).length,
        downVotes := ((db.votes.filter (fun r => r.reportId == rID)).filter
          (fun r => r.vote == -1)).length,
        voteCount := ((db.votes.filter (fun r => r.reportId == rID)).filter
            (fun r => r.vote == 1)).length +
          ((db.votes.filter (fun r => r.reportId == rID)).filter
            (fun r => r.vote == -1)).length,
        score := (((db.votes.filter (fun r => r.reportId == rID)).filter
            (fun r => r.vote == 1)).length : Int) -
          (((db.votes.filter (fun r => r.reportId == rID)).filter
            (fun r => r.vote == -1)).length : Int),
        rawScore := (((db.votes.filter (fun r => r.reportId == rID)).filter
            (fun r => r.vote == 1)).length : Int) -
          (((db.votes.filter (fun r => r.reportId == rID)).filter
            (fun r => r.vote == -1)).length : Int),
        uWeight := (((db.votes.filter (fun r => r.reportId == rID)).filter
            (fun r => r.vote == 1)).map
          (fun r => toFiniteNumber r.weight Votes.DEFAULT_WEIGHT)).sum,
        dWeight := (((db.votes.filter (fun r => r.reportId == rID)).filter
            (fun r => r.vote == -1)).map
          (fun r => toFiniteNumber r.weight Votes.DEFAULT_WEIGHT)).sum,
        weightedScore := (((db.votes.filter (fun r => r.reportId == rID)).filter
            (fun r => r.vote == 1)).map
          (fun r => toFiniteNumber r.weight Votes.DEFAULT_WEIGHT)).sum -
          (((db.votes.filter (fun r => r.reportId == rID)).filter
            (fun r => r.vote == -1)).map
          (fun r => toFiniteNumber r.weight Votes.DEFAULT_WEIGHT)).sum } := by
  simp [Votes.getTotalVotes, votes_normalizeReportId_of_norm h, bind, Except.bind,
        pure, Except.pure, tallyVotes_spec]

/-- **C6.**  `getTotalVotes(reportId)` scans every vote row of the report and returns
`voteCount = upVotes + downVotes`, `rawScore = upVotes - downVotes` and
`weightedScore = uWeight - dWeight`, where `upVotes`/`downVotes` count the `+1`/`-1`
rows and `uWeight`/`dWeight` sum their stored weights (a non-finite stored weight counts
as the default `1`).  In particular, after a reputation-1 user casts `+1` and a
reputation-10 user casts `-1` on the same report, it returns
`upVotes 1, downVotes 1, rawScore 0, weightedScore -9`. -/
theorem getTotalVotes_formulas (db : DB) (rID : String) (h : NormId rID) :
    (∃ t, Votes.getTotalVotes db rID = .ok t ∧
      (t.upVotes = ((db.votes.filter (fun r => r.reportId == rID)).filter
          (fun r => r.vote == 1)).length ∧
       t.downVotes = ((db.votes.filter (fun r => r.reportId == rID)).filter
          (fun r => r.vote == -1)).length ∧
       t.voteCount = t.upVotes + t.downVotes ∧
       t.rawScore = (t.upVotes : Int) - (t.downVotes : Int) ∧
       t.uWeight = (((db.votes.filter (fun r => r.reportId == rID)).filter
          (fun r => r.vote == 1)).map
         (fun r => toFiniteNumber r.weight Votes.DEFAULT_WEIGHT)).sum ∧
       t.dWeight = (((db.votes.filter (fun r => r.reportId == rID)).filter
          (fun r => r.vote == -1)).map
         (fun r => toFiniteNumber r.weight Votes.DEFAULT_WEIGHT)).sum ∧
       t.weightedScore = t.uWeight - t.dWeight)) ∧
    ((do
        let r1 ← Votes.castVote
          { users := [{ uid := "aaaaaaaaaaaaaaaaaaaaaaaa", reputation := some 1 },
                      { uid := "bbbbbbbbbbbbbbbbbbbbbbbb", reputation := some 10 }],
            reports := [], votes := [], duplicateFlags := [], nextVid := 0 }
          "R1" "aaaaaaaaaaaaaaaaaaaaaaaa" 1 10
        let r2 ← Votes.castVote r1.1 "R1" "bbbbbbbbbbbbbbbbbbbbbbbb" (-1) 20
        Votes.getTotalVotes r2.1 "R1") =
      .ok { upVotes := 1, downVotes := 1, voteCount := 2, score := 0, rawScore := 0,
            uWeight := 1, dWeight := 10, weightedScore := -9 }) := by
  constructor
  · exact ⟨_, getTotalVotes_eq db h, rfl, rfl, rfl, rfl, rfl, rfl, rfl⟩
  · have hcast1 : Votes.castVote
        { users := [{ uid := "aaaaaaaaaaaaaaaaaaaaaaaa", reputation := some 1 },
                    { uid := "bbbbbbbbbbbbbbbbbbbbbbbb", reputation := some 10 }],
          reports := [], votes := [], duplicateFlags := [], nextVid := 0 }
        "R1" "aaaaaaaaaaaaaaaaaaaaaaaa" 1 10 = .ok
        ({ users := [{ uid := "aaaaaaaaaaaaaaaaaaaaaaaa", reputation := some 1 },
                     { uid := "bbbbbbbbbbbbbbbbbbbbbbbb", reputation := some 10 }],
           reports := [],
           votes := [{ vid := 0, reportId := "R1",
                       userId := some "aaaaaaaaaaaaaaaaaaaaaaaa", vote := 1,
                       weight := some 1, createdAt := some 10, updatedAt := some 10 }],
           duplicateFlags := [], nextVid := 1 },
         { reportId := "R1", userId := "aaaaaaaaaaaaaaaaaaaaaaaa", vote := 1,
           weight := 1 }) := by
      simp +decide [Votes.castVote, Votes.normalizeReportId, Votes.normalizeUserId,
            Votes.normalizeVote, Votes.getVoteWeightForUser, Users.getUserById,
            Users.ensureObjectId, assertNonEmptyString, assertMaxLen, bind, Except.bind,
            pure, Except.pure, Users.sanitizeUser, Users.normalizeReputation,
            toFiniteNumber, Votes.DEFAULT_WEIGHT, Users.MIN_REPUTATION, jsTrim,
            isValidObjectId]
    have hcast2 : Votes.castVote
        { users := [{ uid := "aaaaaaaaaaaaaaaaaaaaaaaa", reputation := some 1 },
                    { uid := "bbbbbbbbbbbbbbbbbbbbbbbb", reputation := some 10 }],
          reports := [],
          votes := [{ vid := 0, reportId := "R1",
                      userId := some "aaaaaaaaaaaaaaaaaaaaaaaa", vote := 1,
                      weight := some 1, createdAt := some 10, updatedAt := some 10 }],
          duplicateFlags := [], nextVid := 1 }
        "R1" "bbbbbbbbbbbbbbbbbbbbbbbb" (-1) 20 = .ok
        ({ users := [{ uid := "aaaaaaaaaaaaaaaaaaaaaaaa", reputation := some 1 },
                     { uid := "bbbbbbbbbbbbbbbbbbbbbbbb", reputation := some 10 }],
           reports := [],
           votes := [{ vid := 0, reportId := "R1",
                       userId := some "aaaaaaaaaaaaaaaaaaaaaaaa", vote := 1,
                       weight := some 1, createdAt := some 10, updatedAt := some 10 },
                     { vid := 1, reportId := "R1",
                       userId := some "bbbbbbbbbbbbbbbbbbbbbbbb", vote := -1,
                       weight := some 10, createdAt := some 20, updatedAt := some 20 }],
           duplicateFlags := [], nextVid := 2 },
         { reportId := "R1", userId := "bbbbbbbbbbbbbbbbbbbbbbbb", vote := -1,
           weight := 10 }) := by
      simp +decide [Votes.castVote, Votes.normalizeReportId, Votes.normalizeUserId,
            Votes.normalizeVote, Votes.getVoteWeightForUser, Users.getUserById,
            Users.ensureObjectId, assertNonEmptyString, assertMaxLen, bind, Except.bind,
            pure, Except.pure, Users.sanitizeUser, Users.normalizeReputation,
            toFiniteNumber, Votes.DEFAULT_WEIGHT, Users.MIN_REPUTATION, jsTrim,
            isValidObjectId]
    have hfinal : Votes.getTotalVotes
        { users := [{ uid := "aaaaaaaaaaaaaaaaaaaaaaaa", reputation := some 1 },
                    { uid := "bbbbbbbbbbbbbbbbbbbbbbbb", reputation := some 10 }],
          reports := [],
          votes := [{ vid := 0, reportId := "R1",
                      userId := some "aaaaaaaaaaaaaaaaaaaaaaaa", vote := 1,
                      weight := some 1, createdAt := some 10, updatedAt := some 10 },
                    { vid := 1, reportId := "R1",
                      userId := some "bbbbbbbbbbbbbbbbbbbbbbbb", vote := -1,
                      weight := some 10, createdAt := some 20, updatedAt := some 20 }],
          duplicateFlags := [], nextVid := 2 } "R1" = .ok
        { upVotes := 1, downVotes := 1, voteCount := 2, score := 0, rawScore := 0,
          uWeight := 1, dWeight := 10, weightedScore := -9 } := by
      rw [getTotalVotes_eq _ (show NormId "R1" by decide)]
      simp +decide [List.filter, toFiniteNumber, Votes.DEFAULT_WEIGHT]
      norm_num
    show (Votes.castVote _ "R1" "aaaaaaaaaaaaaaaaaaaaaaaa" 1 10 >>= fun r1 =>
      Votes.castVote r1.1 "R1" "bbbbbbbbbbbbbbbbbbbbbbbb" (-1) 20 >>= fun r2 =>
      Votes.getTotalVotes r2.1 "R1") = _
    rw [hcast1]
    simp only [bind, Except.bind]
    rw [hcast2]
    exact hfinal

/-- Closed witness for `getTotalVotes_formulas` at a two-vote database. -/
theorem getTotalVotes_formulas_witness :
    NormId "R1" ∧
    (∃ t, Votes.getTotalVotes
        { users := [], reports := [],
          votes := [{ vid := 0, reportId := "R1", userId := some "u1", vote := 1,
                      weight := some 1, createdAt := some 1, updatedAt := some 1 }],
          duplicateFlags := [], nextVid := 1 } "R1" = .ok t ∧
      (t.upVotes = ((DB.votes
          { users := [], reports := [],
            votes := [{ vid := 0, reportId := "R1", userId := some "u1", vote := 1,
                        weight := some 1, createdAt := some 1, updatedAt := some 1 }],
            duplicateFlags := [], nextVid := 1 }).filter (fun r => r.reportId == "R1")
          |>.filter (fun r => r.vote == 1)).length ∧
       t.downVotes = ((DB.votes
          { users := [], reports := [],
            votes := [{ vid := 0, reportId := "R1", userId := some "u1", vote := 1,
                        weight := some 1, createdAt := some 1, updatedAt := some 1 }],
            duplicateFlags := [], nextVid := 1 }).filter (fun r => r.reportId == "R1")
          |>.filter (fun r => r.vote == -1)).length ∧
       t.voteCount = t.upVotes + t.downVotes ∧
       t.rawScore = (t.upVotes : Int) - (t.downVotes : Int) ∧
       t.uWeight = (((DB.votes
          { users := [], reports := [],
            votes := [{ vid := 0, reportId := "R1", userId := some "u1", vote := 1,
                        weight := some 1, createdAt := some 1, updatedAt := some 1 }],
            duplicateFlags := [], nextVid := 1 }).filter (fun r => r.reportId == "R1")
          |>.filter (fun r => r.vote == 1)).map
         (fun r => toFiniteNumber r.weight Votes.DEFAULT_WEIGHT)).sum ∧
       t.dWeight = (((DB.votes
          { users := [], reports := [],
            votes := [{ vid := 0, reportId := "R1", userId := some "u1", vote := 1,
                        weight := some 1, createdAt := some 1, updatedAt := some 1 }],
            duplicateFlags := [], nextVid := 1 }).filter (fun r => r.reportId == "R1")
          |>.filter (fun r => r.vote == -1)).map
         (fun r => toFiniteNumber r.weight Votes.DEFAULT_WEIGHT)).sum ∧
       t.weightedScore = t.uWeight - t.dWeight)) := by
  refine ⟨by decide, ?_⟩
  exact (getTotalVotes_formulas
    { users := [], reports := [],
      votes := [{ vid := 0, reportId := "R1", userId := some "u1", vote := 1,
                  weight := some 1, createdAt := some 1, updatedAt := some 1 }],
      duplicateFlags := [], nextVid := 1 } "R1" (by decide)).1

/-! ## Claim C5 — `castVote` upsert and weight snapshot -/

/-- The weight `castVote` snapshots is the user's current sanitized reputation floored
at the default weight. -/
theorem getVoteWeightForUser_eq {db : DB} {uID : String} {user : Users.SUser}
    (h : Users.getUserById db uID = .ok user) :
    Votes.getVoteWeightForUser db uID =
      .ok (max Votes.DEFAULT_WEIGHT user.reputation) := by
  simp [Votes.getVoteWeightForUser, h, bind, Except.bind, toFiniteNumber, pure,
        Except.pure]

/-- Counterexample to C5 as frozen: two successive casts by the same user with
*different* reputations (`0`, then `-5`, which sanitizes to the default `1`) both
produce weight `1`, because the weight floor collapses every reputation below `1`.
The second database is the first post-cast state with the user's reputation changed
externally. -/
theorem castVote_equal_weights_counterexample :
    ∃ db1 r1 db2 r2,
      Votes.castVote
        { users := [{ uid := "aaaaaaaaaaaaaaaaaaaaaaaa", reputation := some 0 }],
          reports := [], votes := [], duplicateFlags := [], nextVid := 0 }
        "R1" "aaaaaaaaaaaaaaaaaaaaaaaa" 1 10 = .ok (db1, r1) ∧
      Votes.castVote
        { users := [{ uid := "aaaaaaaaaaaaaaaaaaaaaaaa", reputation := some (-5) }],
          reports := [], votes := db1.votes, duplicateFlags := [], nextVid := db1.nextVid }
        "R1" "aaaaaaaaaaaaaaaaaaaaaaaa" 1 20 = .ok (db2, r2) ∧
      (some (0 : ℚ) ≠ some (-5 : ℚ)) ∧ r1.weight = r2.weight ∧ r1.weight = 1 := by
  refine ⟨{ users := [{ uid := "aaaaaaaaaaaaaaaaaaaaaaaa", reputation := some 0 }],
            reports := [],
            votes := [{ vid := 0, reportId := "R1",
                        userId := some "aaaaaaaaaaaaaaaaaaaaaaaa", vote := 1,
                        weight := some 1, createdAt := some 10, updatedAt := some 10 }],
            duplicateFlags := [], nextVid := 1 },
          { reportId := "R1", userId := "aaaaaaaaaaaaaaaaaaaaaaaa", vote := 1,
            weight := 1 },
          { users := [{ uid := "aaaaaaaaaaaaaaaaaaaaaaaa", reputation := some (-5) }],
            reports := [],
            votes := [{ vid := 0, reportId := "R1",
                        userId := some "aaaaaaaaaaaaaaaaaaaaaaaa", vote := 1,
                        weight := some 1, createdAt := some 10, updatedAt := some 20 }],
            duplicateFlags := [], nextVid := 1 },
          { reportId := "R1", userId := "aaaaaaaaaaaaaaaaaaaaaaaa", vote := 1,
            weight := 1 },
          ?_, ?_, by norm_num, rfl, rfl⟩ <;>
    simp +decide [Votes.castVote, Votes.normalizeReportId, Votes.normalizeUserId,
      Votes.normalizeVote, Votes.getVoteWeightForUser, Users.getUserById,
      Users.ensureObjectId, assertNonEmptyString, assertMaxLen, bind, Except.bind,
      pure, Except.pure, Users.sanitizeUser, Users.normalizeReputation, toFiniteNumber,
      Votes.DEFAULT_WEIGHT, Users.MIN_REPUTATION, jsTrim, isValidObjectId, updateFirst]

/-- **C5 (amended).**  `castVote(reportId, userId, vote ∈ ±1)` upserts the single
`(reportId, userId)` row; on every call it recomputes the stored weight from the user's
current reputation floored at `1`, so a vote always counts for at least one unit, and
two successive casts by the same user with different reputations *both at least `1`*
produce different weights (the returned weight equals the reputation whenever the
reputation is at least `1`).  Replacing an existing row overwrites only `vote`,
`weight` and `updatedAt`, preserving the row identity (`_id`, `createdAt`,
`reportId`, `userId`); otherwise a fresh row is inserted. -/
theorem castVote_spec (db : DB) (rID uID : String) (v : Int) (now : Nat)
    (hr : NormId rID) (hu : NormId uID) (hv : v = 1 ∨ v = -1)
    (user : Users.SUser) (huser : Users.getUserById db uID = .ok user) :
    ∃ db' res, Votes.castVote db rID uID v now = .ok (db', res) ∧
      res.weight = max Votes.DEFAULT_WEIGHT user.reputation ∧
      1 ≤ res.weight ∧
      (1 ≤ user.reputation → res.weight = user.reputation) ∧
      res.vote = v ∧ res.reportId = rID ∧ res.userId = uID ∧
      ((db.votes.find? (fun r => r.reportId == rID && r.userId == some uID)).isSome →
        db'.votes = updateFirst (fun r => r.reportId == rID && r.userId == some uID)
          (fun r => { r with vote := v, weight := some res.weight, updatedAt := some now })
          db.votes) ∧
      (db.votes.find? (fun r => r.reportId == rID && r.userId == some uID) = none →
        db'.votes = db.votes ++
          [{ vid := db.nextVid, reportId := rID, userId := some uID, vote := v,
             weight := some res.weight, createdAt := some now,
             updatedAt := some now }]) := by
  have hw := getVoteWeightForUser_eq huser
  have hnr := votes_normalizeReportId_of_norm hr
  have hnu := votes_normalizeUserId_of_norm hu
  have hnv : Votes.normalizeVote v = .ok v := by
    rcases hv with rfl | rfl <;> simp [Votes.normalizeVote]
  have hge : (1 : ℚ) ≤ max Votes.DEFAULT_WEIGHT user.reputation := by
    simp [Votes.DEFAULT_WEIGHT]
  have heq1 : 1 ≤ user.reputation →
      max Votes.DEFAULT_WEIGHT user.reputation = user.reputation := by
    intro h1
    simpa [Votes.DEFAULT_WEIGHT] using max_eq_right h1
  let key : VoteRow → Bool := fun r => r.reportId == rID && r.userId == some uID
  let res : Votes.CastVoteResult :=
    { reportId := rID, userId := uID, vote := v,
      weight := max Votes.DEFAULT_WEIGHT user.reputation }
  match hfind : db.votes.find? (fun r => r.reportId == rID && r.userId == some uID) with
  | some ex =>
    let upd : VoteRow → VoteRow := fun r =>
      { r with vote := v, weight := some (max Votes.DEFAULT_WEIGHT user.reputation),
               updatedAt := some now }
    refine ⟨{ db with votes := updateFirst key upd db.votes }, res,
            ?_, rfl, hge, heq1, rfl, rfl, rfl, ?_, ?_⟩
    · simp [Votes.castVote, hnr, hnu, hnv, hw, bind, Except.bind, pure, Except.pure,
            hfind, key, upd, res]
    · intro _; rfl
    · intro hnone; rw [hnone] at hfind; cases hfind
  | none =>
    let newRow : VoteRow :=
      { vid := db.nextVid, reportId := rID, userId := some uID, vote := v,
        weight := some (max Votes.DEFAULT_WEIGHT user.reputation),
        createdAt := some now, updatedAt := some now }
    refine ⟨{ db with votes := db.votes ++ [newRow], nextVid := db.nextVid + 1 }, res,
            ?_, rfl, hge, heq1, rfl, rfl, rfl, ?_, ?_⟩
    · simp [Votes.castVote, hnr, hnu, hnv, hw, bind, Except.bind, pure, Except.pure,
            hfind, newRow, res]
    · intro hsome; rw [hfind] at hsome; cases hsome
    · intro _; rfl

/-- Closed witness for `castVote_spec`: a reputation-2 user casting `+1` on an empty
ledger. -/
theorem castVote_spec_witness :
    NormId "R1" ∧ NormId "aaaaaaaaaaaaaaaaaaaaaaaa" ∧
    Users.getUserById
      { users := [{ uid := "aaaaaaaaaaaaaaaaaaaaaaaa", reputation := some 2 }],
        reports := [], votes := [], duplicateFlags := [], nextVid := 0 }
      "aaaaaaaaaaaaaaaaaaaaaaaa" =
        .ok { uid := "aaaaaaaaaaaaaaaaaaaaaaaa", reputation := 2 } ∧
    (∃ db' res, Votes.castVote
      { users := [{ uid := "aaaaaaaaaaaaaaaaaaaaaaaa", reputation := some 2 }],
        reports := [], votes := [], duplicateFlags := [], nextVid := 0 }
      "R1" "aaaaaaaaaaaaaaaaaaaaaaaa" 1 10 = .ok (db', res) ∧
      res.weight = max Votes.DEFAULT_WEIGHT
        (Users.SUser.reputation { uid := "aaaaaaaaaaaaaaaaaaaaaaaa", reputation := 2 }) ∧
      1 ≤ res.weight ∧
      (1 ≤ Users.SUser.reputation { uid := "aaaaaaaaaaaaaaaaaaaaaaaa", reputation := 2 } →
        res.weight = Users.SUser.reputation
          { uid := "aaaaaaaaaaaaaaaaaaaaaaaa", reputation := 2 }) ∧
      res.vote = 1 ∧ res.reportId = "R1" ∧ res.userId = "aaaaaaaaaaaaaaaaaaaaaaaa" ∧
      ((List.find? (fun r => r.reportId == "R1" &&
          r.userId == some "aaaaaaaaaaaaaaaaaaaaaaaa") ([] : List VoteRow)).isSome →
        db'.votes = updateFirst (fun r => r.reportId == "R1" &&
            r.userId == some "aaaaaaaaaaaaaaaaaaaaaaaa")
          (fun r => { r with vote := 1, weight := some res.weight, updatedAt := some 10 })
          ([] : List VoteRow)) ∧
      (List.find? (fun r => r.reportId == "R1" &&
          r.userId == some "aaaaaaaaaaaaaaaaaaaaaaaa") ([] : List VoteRow) = none →
        db'.votes = ([] : List VoteRow) ++
          [{ vid := 0, reportId := "R1", userId := some "aaaaaaaaaaaaaaaaaaaaaaaa",
             vote := 1, weight := some res.weight, createdAt := some 10,
             updatedAt := some 10 }])) := by
  refine ⟨by decide, by decide, ?_, ?_⟩
  · simp +decide [Users.getUserById, Users.ensureObjectId, assertNonEmptyString,
      assertMaxLen, bind, Except.bind, pure, Except.pure, Users.sanitizeUser,
      Users.normalizeReputation, Users.MIN_REPUTATION, Users.DEFAULT_REPUTATION,
      jsTrim, isValidObjectId]
  · exact castVote_spec
      { users := [{ uid := "aaaaaaaaaaaaaaaaaaaaaaaa", reputation := some 2 }],
        reports := [], votes := [], duplicateFlags := [], nextVid := 0 }
      "R1" "aaaaaaaaaaaaaaaaaaaaaaaa" 1 10 (by decide) (by decide) (.inl rfl)
      { uid := "aaaaaaaaaaaaaaaaaaaaaaaa", reputation := 2 }
      (by simp +decide [Users.getUserById, Users.ensureObjectId, assertNonEmptyString,
        assertMaxLen, bind, Except.bind, pure, Except.pure, Users.sanitizeUser,
        Users.normalizeReputation, Users.MIN_REPUTATION, Users.DEFAULT_REPUTATION,
        jsTrim, isValidObjectId])

/-! ## Flags toolbox -/

theorem flags_normalizeUserId_of_norm {s : String} (h : NormId s) :
    Flags.normalizeUserId s = .ok s := by
  obtain ⟨h1, h2, h3⟩ := h
  simp [Flags.normalizeUserId, assertNonEmptyString, h1, h2, assertMaxLen,
        Nat.not_lt.2 h3, bind, Except.bind]

theorem flags_normalizeReportId_of_norm {s : String} (h : NormId s) :
    Flags.normalizeReportId s = .ok s := by
  obtain ⟨h1, h2, h3⟩ := h
  simp [Flags.normalizeReportId, assertNonEmptyString, h1, h2, assertMaxLen,
        Nat.not_lt.2 h3, bind, Except.bind]

/-- Report lookup only reads the `reports` collection. -/
theorem getReportByReportId_reports_eq {db db' : DB} (h : db'.reports = db.reports)
    (x : String) :
    Reports.getReportByReportId db' x = Reports.getReportByReportId db x := by
  simp only [Reports.getReportByReportId, h]

theorem resolveStableReportId_reports_eq {db db' : DB} (h : db'.reports = db.reports)
    (x : String) :
    Flags.resolveStableReportId db' x = Flags.resolveStableReportId db x := by
  simp only [Flags.resolveStableReportId, getReportByReportId_reports_eq h]

theorem canonicalizeReportId_reports_eq {db db' : DB} (h : db'.reports = db.reports)
    (x : String) (v : Bool) :
    Flags.canonicalizeReportId db' x v = Flags.canonicalizeReportId db x v := by
  simp only [Flags.canonicalizeReportId, resolveStableReportId_reports_eq h]

theorem find?_append_none {α : Type} {p : α → Bool} {l1 : List α} (l2 : List α)
    (h : l1.find? p = none) : (l1 ++ l2).find? p = l2.find? p := by
  rw [List.find?_append, h, Option.none_or]

/-! ## Claim C4 — duplicate-flag weight is frozen at first insert -/

/-- **C4.**  For every `(reportId, userId)` pair, the weight stored on a duplicate-flag
row is snapshotted from the flagger's reputation only when the row is first inserted:
whatever a later `flagDuplicate` call for the same pair does (update the canonical id,
clear it, omit it, or fail validation), the stored row keeps its original `weight`
untouched; only when no row exists does a successful call insert a row carrying the
freshly computed current weight. -/
theorem flagDuplicate_weight_freeze (db : DB) (params : Flags.FlagParams) (now : Nat)
    (uID rID : String) (baseReport : Report)
    (hu : Flags.normalizeUserId params.userId = .ok uID)
    (hres : Flags.resolveStableReportId db params.reportId = .ok (baseReport, rID))
    (out : Except JsError Flags.FlagResult) (db' : DB)
    (hrun : Flags.flagDuplicate db params now = (out, db')) :
    (∀ ex, db.duplicateFlags.find?
        (fun f => f.reportId == rID && f.userId == uID) = some ex →
      (db'.duplicateFlags.find?
        (fun f => f.reportId == rID && f.userId == uID)).map (fun f => f.weight) =
        some ex.weight) ∧
    (db.duplicateFlags.find? (fun f => f.reportId == rID && f.userId == uID) = none →
      out.isOk = true →
      ∀ w, Flags.getWeightForUser db uID = .ok w →
      (db'.duplicateFlags.find?
        (fun f => f.reportId == rID && f.userId == uID)).map (fun f => f.weight) =
        some (some w)) := by
  simp only [Flags.flagDuplicate, hu, hres] at hrun
  have keyfact : ∀ f : FlagRow, (f.reportId == rID && f.userId == uID) = true →
      ∀ g : FlagRow, g.reportId = f.reportId → g.userId = f.userId →
      (g.reportId == rID && g.userId == uID) = true := by
    intro f hf g h1 h2
    rw [h1, h2] at *
    exact hf
  match hcn : (match params.canonicalReportId with
               | some c => Flags.normalizeOptionalCanonicalReportId c
               | none => (.ok none : Except JsError (Option String))) with
  | .error e =>
    simp only [hcn] at hrun
    simp only [Prod.mk.injEq] at hrun
    obtain ⟨h1, h2⟩ := hrun
    subst h1; subst h2
    refine ⟨fun ex hex => by rw [hex]; rfl, fun hnone hok => by simp [Except.isOk, Except.toBool] at hok⟩
  | .ok cn =>
    simp only [hcn] at hrun
    match hrc : Flags.resolveCanonicalParam db baseReport rID
        params.canonicalReportId.isSome (cn.getD "") with
    | .error e =>
      simp only [hrc] at hrun
      simp only [Prod.mk.injEq] at hrun
      obtain ⟨h1, h2⟩ := hrun
      subst h1; subst h2
      refine ⟨fun ex hex => by rw [hex]; rfl, fun hnone hok => by simp [Except.isOk, Except.toBool] at hok⟩
    | .ok canonicalStableId =>
      simp only [hrc] at hrun
      match hfind : db.duplicateFlags.find?
          (fun f => f.reportId == rID && f.userId == uID) with
      | some existing =>
        simp only [hfind] at hrun
        simp only [Prod.mk.injEq] at hrun
        obtain ⟨h1, h2⟩ := hrun
        subst h1; subst h2
        constructor
        · intro ex hex
          rw [hfind] at hex
          cases hex
          have hkey : ∀ x : FlagRow, (x.reportId == rID && x.userId == uID) = true →
              (((if params.canonicalReportId.isSome = true then
                  { x with updatedAt := now, canonicalReportId := some canonicalStableId }
                 else { x with updatedAt := now }) : FlagRow).reportId == rID &&
               ((if params.canonicalReportId.isSome = true then
                  { x with updatedAt := now, canonicalReportId := some canonicalStableId }
                 else { x with updatedAt := now }) : FlagRow).userId == uID) = true := by
            intro x hx
            by_cases hp : params.canonicalReportId.isSome <;> simpa [hp] using hx
          have hpres := find?_updateFirst_self hfind hkey
          rw [hpres]
          by_cases hp : params.canonicalReportId.isSome <;> simp [hp]
        · intro hnone
          rw [hfind] at hnone; cases hnone
      | none =>
        simp only [hfind] at hrun
        match hw' : Flags.getWeightForUser db uID with
        | .error e =>
          simp only [hw'] at hrun
          simp only [Prod.mk.injEq] at hrun
          obtain ⟨h1, h2⟩ := hrun
          subst h1; subst h2
          constructor
          · intro ex hex
            rw [hfind] at hex; cases hex
          · intro hnone hok
            simp [Except.isOk, Except.toBool] at hok
        | .ok weight =>
          simp only [hw'] at hrun
          simp only [Prod.mk.injEq] at hrun
          obtain ⟨h1, h2⟩ := hrun
          subst h1; subst h2
          constructor
          · intro ex hex
            rw [hfind] at hex; cases hex
          · intro _ _ w hw
            obtain rfl : weight = w := Except.ok.inj hw
            rw [find?_append_none _ hfind]
            simp

/-- Closed witness for `flagDuplicate_weight_freeze`: re-flagging with the canonical id
omitted leaves the stored weight `7` untouched. -/
theorem flagDuplicate_weight_freeze_witness :
    Flags.flagDuplicate
      { users := [],
        reports := [{ mid := "m1", reportId := "R1", targetType := "station",
                      targetId := "S1", status := "open", mergedInto := none,
                      mergedFrom := [], moderatedAt := none, updatedAt := none,
                      votes := none }],
        votes := [],
        duplicateFlags := [{ reportId := "R1", userId := "u1",
                             canonicalReportId := some "R2", weight := some 7,
                             createdAt := 1, updatedAt := 1 }],
        nextVid := 0 }
      { reportId := "R1", userId := "u1", canonicalReportId := none } 5 =
      (.ok { reportId := "R1", userId := "u1", canonicalReportId := "R2" },
       { users := [],
         reports := [{ mid := "m1", reportId := "R1", targetType := "station",
                       targetId := "S1", status := "open", mergedInto := none,
                       mergedFrom := [], moderatedAt := none, updatedAt := none,
                       votes := none }],
         votes := [],
         duplicateFlags := [{ reportId := "R1", userId := "u1",
                              canonicalReportId := some "R2", weight := some 7,
                              createdAt := 1, updatedAt := 5 }],
         nextVid := 0 }) ∧
    ((∀ ex : FlagRow, (List.find? (fun f => f.reportId == "R1" && f.userId == "u1")
        ([{ reportId := "R1", userId := "u1", canonicalReportId := some "R2",
            weight := some 7, createdAt := 1, updatedAt := 1 }] : List FlagRow)) =
          some ex →
      (Option.map (fun f => f.weight) (List.find?
        (fun f => f.reportId == "R1" && f.userId == "u1")
        ([{ reportId := "R1", userId := "u1", canonicalReportId := some "R2",
            weight := some 7, createdAt := 1, updatedAt := 5 }] : List FlagRow))) =
          some ex.weight)) := by
  have h := flagDuplicate_weight_freeze
    { users := [],
      reports := [{ mid := "m1", reportId := "R1", targetType := "station",
                    targetId := "S1", status := "open", mergedInto := none,
                    mergedFrom := [], moderatedAt := none, updatedAt := none,
                    votes := none }],
      votes := [],
      duplicateFlags := [{ reportId := "R1", userId := "u1",
                           canonicalReportId := some "R2", weight := some 7,
                           createdAt := 1, updatedAt := 1 }],
      nextVid := 0 }
    { reportId := "R1", userId := "u1", canonicalReportId := none } 5
    "u1" "R1"
    { mid := "m1", reportId := "R1", targetType := "station", targetId := "S1",
      status := "open", mergedInto := none, mergedFrom := [], moderatedAt := none,
      updatedAt := none, votes := none }
    (by decide) (by decide)
    (.ok { reportId := "R1", userId := "u1", canonicalReportId := "R2" })
    { users := [],
      reports := [{ mid := "m1", reportId := "R1", targetType := "station",
                    targetId := "S1", status := "open", mergedInto := none,
                    mergedFrom := [], moderatedAt := none, updatedAt := none,
                    votes := none }],
      votes := [],
      duplicateFlags := [{ reportId := "R1", userId := "u1",
                           canonicalReportId := some "R2", weight := some 7,
                           createdAt := 1, updatedAt := 5 }],
      nextVid := 0 }
    (by decide)
  exact ⟨by decide, h.1⟩

/-! ## Claim C9 — first flag with canonical omitted -/

/-- **C9.**  When no flag exists for `(reportId, userId)` and `flagDuplicate` is called
with `canonicalReportId` omitted, a new row is inserted carrying a freshly snapshotted
weight but *no* `canonicalReportId` field; the call returns `canonicalReportId = ''`
and a subsequent `getUserDuplicateFlag` returns `flagged = true` with
`canonicalReportId = ''`. -/
theorem flagDuplicate_first_insert_omitted (db : DB) (params : Flags.FlagParams)
    (now : Nat) (uID rID : String) (baseReport : Report) (w : ℚ)
    (hu : Flags.normalizeUserId params.userId = .ok uID)
    (hun : NormId uID)
    (hres : Flags.resolveStableReportId db params.reportId = .ok (baseReport, rID))
    (habsent : params.canonicalReportId = none)
    (hnone : db.duplicateFlags.find?
      (fun f => f.reportId == rID && f.userId == uID) = none)
    (hw : Flags.getWeightForUser db uID = .ok w)
    (hc : Flags.canonicalizeReportId db rID false = .ok rID) :
    ∃ db', Flags.flagDuplicate db params now =
        (.ok { reportId := rID, userId := uID, canonicalReportId := "" }, db') ∧
      db'.duplicateFlags = db.duplicateFlags ++
        [{ reportId := rID, userId := uID, canonicalReportId := none,
           weight := some w, createdAt := now, updatedAt := now }] ∧
      Flags.getUserDuplicateFlag db' rID uID false =
        .ok { flagged := true, canonicalReportId := "" } := by
  refine ⟨{ db with duplicateFlags := db.duplicateFlags ++
      [{ reportId := rID, userId := uID, canonicalReportId := none,
         weight := some w, createdAt := now, updatedAt := now }] }, ?_, rfl, ?_⟩
  · simp [Flags.flagDuplicate, hu, hres, habsent, Flags.resolveCanonicalParam,
          hnone, hw, pure, Except.pure]
  · have hc' : Flags.canonicalizeReportId
        { db with duplicateFlags := db.duplicateFlags ++
          [{ reportId := rID, userId := uID, canonicalReportId := none,
             weight := some w, createdAt := now, updatedAt := now }] } rID false =
        .ok rID :=
      Eq.trans (canonicalizeReportId_reports_eq rfl rID false) hc
    have hfind2 : (db.duplicateFlags ++
        [({ reportId := rID, userId := uID, canonicalReportId := none,
            weight := some w, createdAt := now, updatedAt := now } : FlagRow)]).find?
          (fun f => f.reportId == rID && f.userId == uID) =
        some { reportId := rID, userId := uID, canonicalReportId := none,
               weight := some w, createdAt := now, updatedAt := now } := by
      rw [find?_append_none _ hnone]
      simp
    simp [Flags.getUserDuplicateFlag, hc', flags_normalizeUserId_of_norm hun,
          bind, Except.bind, pure, Except.pure, hfind2, jsTrim]

/-- Closed witness for `flagDuplicate_first_insert_omitted`. -/
theorem flagDuplicate_first_insert_omitted_witness :
    ∃ db', Flags.flagDuplicate
      { users := [{ uid := "aaaaaaaaaaaaaaaaaaaaaaaa", reputation := some 4 }],
        reports := [{ mid := "m1", reportId := "R1", targetType := "station",
                      targetId := "S1", status := "open", mergedInto := none,
                      mergedFrom := [], moderatedAt := none, updatedAt := none,
                      votes := none }],
        votes := [], duplicateFlags := [], nextVid := 0 }
      { reportId := "R1", userId := "aaaaaaaaaaaaaaaaaaaaaaaa",
        canonicalReportId := none } 5 =
        (.ok { reportId := "R1", userId := "aaaaaaaaaaaaaaaaaaaaaaaa",
               canonicalReportId := "" }, db') ∧
      db'.duplicateFlags = [] ++
        [{ reportId := "R1", userId := "aaaaaaaaaaaaaaaaaaaaaaaa",
           canonicalReportId := none, weight := some 4, createdAt := 5,
           updatedAt := 5 }] ∧
      Flags.getUserDuplicateFlag db' "R1" "aaaaaaaaaaaaaaaaaaaaaaaa" false =
        .ok { flagged := true, canonicalReportId := "" } := by
  refine flagDuplicate_first_insert_omitted _ _ 5 "aaaaaaaaaaaaaaaaaaaaaaaa" "R1"
    { mid := "m1", reportId := "R1", targetType := "station", targetId := "S1",
      status := "open", mergedInto := none, mergedFrom := [], moderatedAt := none,
      updatedAt := none, votes := none } 4
    (by decide) (by decide) (by decide) rfl (by decide) ?_ (by decide)
  simp +decide [Flags.getWeightForUser, Users.getUserById, Users.ensureObjectId,
    assertNonEmptyString, assertMaxLen, bind, Except.bind, pure, Except.pure,
    Users.sanitizeUser, Users.normalizeReputation, toFiniteNumber,
    Flags.DEFAULT_WEIGHT, Users.MIN_REPUTATION, jsTrim, isValidObjectId]

/-! ## Claim C3 — tri-state `canonicalReportId` handling -/

/-- Counterexample to C3 as frozen: a provided non-empty `canonicalReportId` that does
not resolve to any report makes `flagDuplicate` fail with status **404** (`NotFound`),
not 400 (`InvalidArgument`); the stored flag is unchanged. -/
theorem flagDuplicate_canonical_notfound_counterexample :
    Flags.flagDuplicate
      { users := [],
        reports := [{ mid := "m1", reportId := "R1", targetType := "station",
                      targetId := "S1", status := "open", mergedInto := none,
                      mergedFrom := [], moderatedAt := none, updatedAt := none,
                      votes := none }],
        votes := [],
        duplicateFlags := [{ reportId := "R1", userId := "u1",
                             canonicalReportId := some "R2", weight := some 7,
                             createdAt := 1, updatedAt := 1 }],
        nextVid := 0 }
      { reportId := "R1", userId := "u1", canonicalReportId := some (some "R9") } 5 =
      (.error (makeError "Report not found" 404),
       { users := [],
         reports := [{ mid := "m1", reportId := "R1", targetType := "station",
                       targetId := "S1", status := "open", mergedInto := none,
                       mergedFrom := [], moderatedAt := none, updatedAt := none,
                       votes := none }],
         votes := [],
         duplicateFlags := [{ reportId := "R1", userId := "u1",
                              canonicalReportId := some "R2", weight := some 7,
                              createdAt := 1, updatedAt := 1 }],
         nextVid := 0 }) ∧
    (makeError "Report not found" 404).status ≠ 400 := by
  constructor
  · decide
  · decide

/-- **C3 (amended).**  `flagDuplicate` treats `canonicalReportId` as tri-state: omitted
→ the stored value of an existing flag is untouched; provided empty/whitespace → the
stored value is cleared; provided non-empty → it must resolve to an existing report
(else the call fails with `NotFound` 404) that shares `(targetType, targetId)` with the
flagged report and differs from it (else `InvalidArgument` 400); on every failure the
stored flags are unchanged. -/
theorem flagDuplicate_tristate (db : DB) (params : Flags.FlagParams) (now : Nat)
    (uID rID : String) (baseReport : Report)
    (hu : Flags.normalizeUserId params.userId = .ok uID)
    (hres : Flags.resolveStableReportId db params.reportId = .ok (baseReport, rID)) :
    (params.canonicalReportId = none →
      ∀ ex, db.duplicateFlags.find? (fun f => f.reportId == rID && f.userId == uID) = some ex →
        ∀ ret, ret = jsTrim (ex.canonicalReportId.getD "") →
        Flags.flagDuplicate db params now =
          (.ok { reportId := rID, userId := uID, canonicalReportId := ret },
           { db with duplicateFlags := updateFirst (fun f => f.reportId == rID && f.userId == uID) (fun f => { f with updatedAt := now }) db.duplicateFlags })) ∧
    (∀ c, params.canonicalReportId = some c → jsTrim (c.getD "") = "" →
      ∀ ex, db.duplicateFlags.find? (fun f => f.reportId == rID && f.userId == uID) = some ex →
        Flags.flagDuplicate db params now =
          (.ok { reportId := rID, userId := uID, canonicalReportId := "" },
           { db with duplicateFlags := updateFirst (fun f => f.reportId == rID && f.userId == uID) (fun f => { f with updatedAt := now, canonicalReportId := some "" }) db.duplicateFlags })) ∧
    (∀ c s, params.canonicalReportId = some (some c) → jsTrim c = s → NormId s →
      ∀ canonicalReport stableId,
        Flags.resolveStableReportId db s = .ok (canonicalReport, stableId) →
        stableId ≠ rID → Flags.sameTarget baseReport canonicalReport = true →
        ∀ ex, db.duplicateFlags.find? (fun f => f.reportId == rID && f.userId == uID) = some ex →
          Flags.flagDuplicate db params now =
            (.ok { reportId := rID, userId := uID, canonicalReportId := stableId },
             { db with duplicateFlags := updateFirst (fun f => f.reportId == rID && f.userId == uID) (fun f => { f with updatedAt := now, canonicalReportId := some stableId }) db.duplicateFlags })) ∧
    (∀ c s, params.canonicalReportId = some (some c) → jsTrim c = s → NormId s →
      ∀ canonicalReport stableId,
        Flags.resolveStableReportId db s = .ok (canonicalReport, stableId) →
        stableId = rID →
        Flags.flagDuplicate db params now =
          (.error (makeError "canonicalReportId cannot equal reportId" 400), db)) ∧
    (∀ c s, params.canonicalReportId = some (some c) → jsTrim c = s → NormId s →
      ∀ canonicalReport stableId,
        Flags.resolveStableReportId db s = .ok (canonicalReport, stableId) →
        stableId ≠ rID → Flags.sameTarget baseReport canonicalReport = false →
        Flags.flagDuplicate db params now =
          (.error (makeError
            "canonicalReportId must reference a report on the same target" 400), db)) ∧
    (∀ c s, params.canonicalReportId = some (some c) → jsTrim c = s → NormId s →
      db.reports.find? (fun r => r.reportId == s) = none →
      (if isValidObjectId s then db.reports.find? (fun r => r.mid == s) else none)
        = none →
      Flags.flagDuplicate db params now =
        (.error (makeError "Report not found" 404), db)) := by
  refine ⟨?_, ?_, ?_, ?_, ?_, ?_⟩
  · rintro habsent ex hex ret rfl
    simp [Flags.flagDuplicate, hu, hres, habsent, Flags.resolveCanonicalParam, hex,
          pure, Except.pure]
  · rintro c hprov hc ex hex
    match c with
    | none =>
      simp [Flags.flagDuplicate, hu, hres, hprov,
            Flags.normalizeOptionalCanonicalReportId, Flags.resolveCanonicalParam,
            hex, pure, Except.pure]
    | some v =>
      simp only [Option.getD] at hc
      simp [Flags.flagDuplicate, hu, hres, hprov,
            Flags.normalizeOptionalCanonicalReportId, hc,
            Flags.resolveCanonicalParam, hex, pure, Except.pure]
  · rintro c s hprov rfl hn canonicalReport stableId hres2 hne hsame ex hex
    have hlen := Nat.not_lt.2 hn.2.2
    simp [Flags.flagDuplicate, hu, hres, hprov,
          Flags.normalizeOptionalCanonicalReportId, hn.2.1, assertMaxLen, hlen,
          Flags.resolveCanonicalParam, hres2, hne, hsame, hex,
          bind, Except.bind, pure, Except.pure, Except.map]
  · rintro c s hprov rfl hn canonicalReport stableId hres2 heq
    subst heq
    have hlen := Nat.not_lt.2 hn.2.2
    simp [Flags.flagDuplicate, hu, hres, hprov,
          Flags.normalizeOptionalCanonicalReportId, hn.2.1, assertMaxLen, hlen,
          Flags.resolveCanonicalParam, hres2, bind, Except.bind, pure, Except.pure,
          Except.map]
  · rintro c s hprov rfl hn canonicalReport stableId hres2 hne hsame
    have hlen := Nat.not_lt.2 hn.2.2
    simp [Flags.flagDuplicate, hu, hres, hprov,
          Flags.normalizeOptionalCanonicalReportId, hn.2.1, assertMaxLen, hlen,
          Flags.resolveCanonicalParam, hres2, hne, hsame,
          bind, Except.bind, pure, Except.pure, Except.map]
  · rintro c s hprov rfl hn hfind1 hfind2
    have hlen := Nat.not_lt.2 hn.2.2
    have h404 : Flags.resolveStableReportId db (jsTrim c) =
        .error (makeError "Report not found" 404) := by
      simp [Flags.resolveStableReportId, Flags.normalizeReportId,
            assertNonEmptyString, hn.1, hn.2.1, assertMaxLen, hlen,
            Reports.getReportByReportId, Reports.normalizeReportId, hfind1, hfind2,
            bind, Except.bind, pure, Except.pure]
    simp [Flags.flagDuplicate, hu, hres, hprov,
          Flags.normalizeOptionalCanonicalReportId, hn.2.1, assertMaxLen, hlen,
          Flags.resolveCanonicalParam, h404, bind, Except.bind, pure, Except.pure,
          Except.map]

/-- Closed witness for `flagDuplicate_tristate`: with an existing flag whose canonical
id is `"R9"`, an omitted canonical leaves `"R9"` stored, and a provided `"R2"`
(an existing same-target report) stores `"R2"`. -/
theorem flagDuplicate_tristate_witness :
    (Flags.flagDuplicate
      { users := [],
        reports := [{ mid := "m1", reportId := "R1", targetType := "station",
                      targetId := "S1", status := "open", mergedInto := none,
                      mergedFrom := [], moderatedAt := none, updatedAt := none,
                      votes := none },
                    { mid := "m2", reportId := "R2", targetType := "station",
                      targetId := "S1", status := "open", mergedInto := none,
                      mergedFrom := [], moderatedAt := none, updatedAt := none,
                      votes := none }],
        votes := [],
        duplicateFlags := [{ reportId := "R1", userId := "u1",
                             canonicalReportId := some "R9", weight := some 7,
                             createdAt := 1, updatedAt := 1 }],
        nextVid := 0 }
      { reportId := "R1", userId := "u1", canonicalReportId := none } 5 =
      (.ok { reportId := "R1", userId := "u1", canonicalReportId := "R9" },
       { users := [],
         reports := [{ mid := "m1", reportId := "R1", targetType := "station",
                       targetId := "S1", status := "open", mergedInto := none,
                       mergedFrom := [], moderatedAt := none, updatedAt := none,
                       votes := none },
                     { mid := "m2", reportId := "R2", targetType := "station",
                       targetId := "S1", status := "open", mergedInto := none,
                       mergedFrom := [], moderatedAt := none, updatedAt := none,
                       votes := none }],
         votes := [],
         duplicateFlags := updateFirst (fun f => f.reportId == "R1" && f.userId == "u1") (fun f => { f with updatedAt := 5 }) [{ reportId := "R1", userId := "u1", canonicalReportId := some "R9", weight := some 7, createdAt := 1, updatedAt := 1 }],
         nextVid := 0 })) ∧
    (Flags.flagDuplicate
      { users := [],
        reports := [{ mid := "m1", reportId := "R1", targetType := "station",
                      targetId := "S1", status := "open", mergedInto := none,
                      mergedFrom := [], moderatedAt := none, updatedAt := none,
                      votes := none },
                    { mid := "m2", reportId := "R2", targetType := "station",
                      targetId := "S1", status := "open", mergedInto := none,
                      mergedFrom := [], moderatedAt := none, updatedAt := none,
                      votes := none }],
        votes := [],
        duplicateFlags := [{ reportId := "R1", userId := "u1",
                             canonicalReportId := some "R9", weight := some 7,
                             createdAt := 1, updatedAt := 1 }],
        nextVid := 0 }
      { reportId := "R1", userId := "u1", canonicalReportId := some (some "R2") } 5 =
      (.ok { reportId := "R1", userId := "u1", canonicalReportId := "R2" },
       { users := [],
         reports := [{ mid := "m1", reportId := "R1", targetType := "station",
                       targetId := "S1", status := "open", mergedInto := none,
                       mergedFrom := [], moderatedAt := none, updatedAt := none,
                       votes := none },
                     { mid := "m2", reportId := "R2", targetType := "station",
                       targetId := "S1", status := "open", mergedInto := none,
                       mergedFrom := [], moderatedAt := none, updatedAt := none,
                       votes := none }],
         votes := [],
         duplicateFlags := updateFirst (fun f => f.reportId == "R1" && f.userId == "u1") (fun f => { f with updatedAt := 5, canonicalReportId := some "R2" }) [{ reportId := "R1", userId := "u1", canonicalReportId := some "R9", weight := some 7, createdAt := 1, updatedAt := 1 }],
         nextVid := 0 })) := by
  have h1 := flagDuplicate_tristate
    { users := [],
      reports := [{ mid := "m1", reportId := "R1", targetType := "station",
                    targetId := "S1", status := "open", mergedInto := none,
                    mergedFrom := [], moderatedAt := none, updatedAt := none,
                    votes := none },
                  { mid := "m2", reportId := "R2", targetType := "station",
                    targetId := "S1", status := "open", mergedInto := none,
                    mergedFrom := [], moderatedAt := none, updatedAt := none,
                    votes := none }],
      votes := [],
      duplicateFlags := [{ reportId := "R1", userId := "u1",
                           canonicalReportId := some "R9", weight := some 7,
                           createdAt := 1, updatedAt := 1 }],
      nextVid := 0 }
    { reportId := "R1", userId := "u1", canonicalReportId := none } 5
    "u1" "R1"
    { mid := "m1", reportId := "R1", targetType := "station", targetId := "S1",
      status := "open", mergedInto := none, mergedFrom := [], moderatedAt := none,
      updatedAt := none, votes := none }
    (by decide) (by decide)
  have h2 := flagDuplicate_tristate
    { users := [],
      reports := [{ mid := "m1", reportId := "R1", targetType := "station",
                    targetId := "S1", status := "open", mergedInto := none,
                    mergedFrom := [], moderatedAt := none, updatedAt := none,
                    votes := none },
                  { mid := "m2", reportId := "R2", targetType := "station",
                    targetId := "S1", status := "open", mergedInto := none,
                    mergedFrom := [], moderatedAt := none, updatedAt := none,
                    votes := none }],
      votes := [],
      duplicateFlags := [{ reportId := "R1", userId := "u1",
                           canonicalReportId := some "R9", weight := some 7,
                           createdAt := 1, updatedAt := 1 }],
      nextVid := 0 }
    { reportId := "R1", userId := "u1", canonicalReportId := some (some "R2") } 5
    "u1" "R1"
    { mid := "m1", reportId := "R1", targetType := "station", targetId := "S1",
      status := "open", mergedInto := none, mergedFrom := [], moderatedAt := none,
      updatedAt := none, votes := none }
    (by decide) (by decide)
  constructor
  · exact h1.1 rfl
      { reportId := "R1", userId := "u1", canonicalReportId := some "R9",
        weight := some 7, createdAt := 1, updatedAt := 1 }
      (by decide) "R9" (by decide)
  · exact h2.2.2.1 "R2" "R2" rfl (by decide) (by decide)
      { mid := "m2", reportId := "R2", targetType := "station", targetId := "S1",
        status := "open", mergedInto := none, mergedFrom := [], moderatedAt := none,
        updatedAt := none, votes := none }
      "R2" (by decide) (by decide) (by decide)
      { reportId := "R1", userId := "u1", canonicalReportId := some "R9",
        weight := some 7, createdAt := 1, updatedAt := 1 }
      (by decide)

/-! ## Claim C7 — `getDuplicateTotals` aggregation and candidate ranking -/

theorem candidateLE_trans : ∀ (a b c : Flags.Candidate),
    Flags.candidateLE a b = true → Flags.candidateLE b c = true →
    Flags.candidateLE a c = true := by
  intro a b c h1 h2
  simp only [Flags.candidateLE, decide_eq_true_eq] at h1 h2 ⊢
  exact le_trans h1 h2

theorem candidateLE_total : ∀ (a b : Flags.Candidate),
    (Flags.candidateLE a b || Flags.candidateLE b a) = true := by
  intro a b
  simp only [Flags.candidateLE, Bool.or_eq_true, decide_eq_true_eq]
  exact le_total _ _

theorem filter_map_comm {α β : Type} (f : α → β) (p : β → Bool) (l : List α) :
    (l.map f).filter p = (l.filter (fun a => p (f a))).map f := by
  induction l with
  | nil => rfl
  | cons x xs ih => by_cases hx : p (f x) <;> simp [List.filter_cons, hx, ih]

/-- Taking the first `MAX_CANDIDATES` of a merge-sorted list yields `[]` only for the
empty list. -/
theorem take_mergeSort_eq_nil_iff (l : List Flags.Candidate) :
    (l.mergeSort Flags.candidateLE).take Flags.MAX_CANDIDATES = [] ↔ l = [] := by
  rw [List.take_eq_nil_iff]
  constructor
  · rintro (h5 | hnil)
    · simp [Flags.MAX_CANDIDATES] at h5
    · have hp := List.mergeSort_perm l Flags.candidateLE
      rw [hnil] at hp
      exact hp.symm.eq_nil
  · intro h
    right
    rw [h, List.mergeSort_nil]

/-- **C7.**  `getDuplicateTotals(reportId)` returns `flagCount` and `weightTotal`
aggregated over *all* of the report's flags — including those with no canonical
opinion — while `candidates` aggregates only flags with a non-empty
`canonicalReportId`, grouped by candidate: it is exactly the first (at most) 5 entries
of a ranking of *every* such candidate group, sorted by weight descending then count
descending then candidate id ascending (so it is empty iff the report has no eligible
flag at all), each entry carrying the exact flag count and weight sum of its group;
the `topCandidate*` fields equal the first-ranked candidate, or `''`/0 exactly when
there is none.  In particular, for the spec's scenario — a single flag `R1 → R2` with
snapshotted weight 5 — it returns `flagCount 1, weightTotal 5,
topCandidateReportId "R2", topCandidateCount 1, topCandidateWeight 5`. -/
theorem getDuplicateTotals_spec (db : DB) (reportId rID : String)
    (hc : Flags.canonicalizeReportId db reportId false = .ok rID) :
    (∃ t, Flags.getDuplicateTotals db reportId false = .ok t) ∧
    (∀ t, Flags.getDuplicateTotals db reportId false = .ok t →
      t.flagCount = (db.duplicateFlags.filter (fun f => f.reportId == rID)).length ∧
      t.weightTotal = ((db.duplicateFlags.filter (fun f => f.reportId == rID)).map (fun f => f.weight.getD Flags.DEFAULT_WEIGHT)).sum ∧
      t.candidates.length ≤ Flags.MAX_CANDIDATES ∧
      t.candidates.Pairwise (fun a b => Flags.candidateLE a b = true) ∧
      (∀ c ∈ t.candidates, c.canonicalReportId ≠ "" ∧
        c.count = ((db.duplicateFlags.filter (fun f => f.reportId == rID)).filter (fun f => f.canonicalReportId == some c.canonicalReportId)).length ∧
        c.weight = (((db.duplicateFlags.filter (fun f => f.reportId == rID)).filter (fun f => f.canonicalReportId == some c.canonicalReportId)).map (fun f => f.weight.getD Flags.DEFAULT_WEIGHT)).sum) ∧
      (∃ all : List Flags.Candidate, all.Perm (Flags.groupedCandidates db rID) ∧
        all.Pairwise (fun a b => Flags.candidateLE a b = true) ∧
        t.candidates = all.take Flags.MAX_CANDIDATES) ∧
      (t.candidates = [] ↔
        (Flags.projectFlags db rID).filter Flags.eligibleCanonical = []) ∧
      (t.topCandidateReportId = (t.candidates.head?.map (fun c => c.canonicalReportId)).getD "" ∧
       t.topCandidateCount = (t.candidates.head?.map (fun c => c.count)).getD 0 ∧
       t.topCandidateWeight = (t.candidates.head?.map (fun c => c.weight)).getD 0)) ∧
    Flags.getDuplicateTotals (⟨[], [], [], [{ reportId := "R1", userId := "u1", canonicalReportId := some "R2", weight := some 5, createdAt := 1, updatedAt := 1 }], 0⟩ : DB) "R1" false =
      .ok { flagCount := 1, weightTotal := 5, topCandidateReportId := "R2",
            topCandidateCount := 1, topCandidateWeight := 5,
            candidates := [{ canonicalReportId := "R2", count := 1, weight := 5 }] } := by
  refine ⟨?_, ?_, ?_⟩
  · cases hrun : Flags.getDuplicateTotals db reportId false with
    | error e =>
      simp [Flags.getDuplicateTotals, hc, bind, Except.bind, pure, Except.pure] at hrun
    | ok t => exact ⟨t, rfl⟩
  · intro t ht
    simp only [Flags.getDuplicateTotals, hc, bind, Except.bind, pure, Except.pure,
               Except.ok.injEq] at ht
    subst ht
    refine ⟨?_, ?_, ?_, ?_, ?_, ?_, ?_, ?_⟩
    · simp [Flags.projectFlags]
    · simp only [Flags.projectFlags, List.map_map]
      rfl
    · simp [List.length_take]
    · exact List.Pairwise.sublist (List.take_sublist _ _)
        (List.sorted_mergeSort candidateLE_trans candidateLE_total _)
    · intro c hcmem
      have hmem1 : c ∈ ((Flags.projectFlags db rID).filter Flags.eligibleCanonical
          |>.map (fun p => p.1.getD "") |>.dedup.map (fun k =>
            ({ canonicalReportId := k,
               count := ((Flags.projectFlags db rID).filter Flags.eligibleCanonical
                 |>.filter (fun p => p.1 == some k)).length,
               weight := (((Flags.projectFlags db rID).filter Flags.eligibleCanonical
                 |>.filter (fun p => p.1 == some k)).map (fun p => p.2)).sum }
             : Flags.Candidate))) := by
        have hsub := (List.take_sublist Flags.MAX_CANDIDATES _).subset hcmem
        exact (List.mergeSort_perm _ Flags.candidateLE).mem_iff.1 hsub
      obtain ⟨k, hk, rfl⟩ := List.mem_map.1 hmem1
      have hk' := List.mem_dedup.1 hk
      obtain ⟨p, hp, hpk⟩ := List.mem_map.1 hk'
      have hpe := List.of_mem_filter hp
      obtain ⟨sp, hsp⟩ : ∃ sp, p.1 = some sp := by
        cases hps : p.1 with
        | none => rw [Flags.eligibleCanonical, hps] at hpe; cases hpe
        | some v => exact ⟨v, rfl⟩
      have hkne : k ≠ "" := by
        rw [Flags.eligibleCanonical, hsp] at hpe
        rw [← hpk, hsp]
        simpa using of_decide_eq_true hpe
      have hrows : ((Flags.projectFlags db rID).filter Flags.eligibleCanonical).filter
          (fun p => p.1 == some k) =
          ((db.duplicateFlags.filter (fun f => f.reportId == rID)).filter
            (fun f => f.canonicalReportId == some k)).map
            (fun f => (f.canonicalReportId, f.weight.getD Flags.DEFAULT_WEIGHT)) := by
        rw [List.filter_filter]
        have hcong : ∀ q ∈ Flags.projectFlags db rID,
            (q.1 == some k && Flags.eligibleCanonical q) = (q.1 == some k) := by
          intro q hq
          cases hqk : (q.1 == some k) with
          | false => simp
          | true =>
            have : q.1 = some k := by simpa using hqk
            simp [Flags.eligibleCanonical, this, hkne]
        rw [List.filter_congr hcong]
        rw [Flags.projectFlags, filter_map_comm]
      refine ⟨hkne, ?_, ?_⟩
      · simp only [hrows, List.length_map]
      · simp only [hrows, List.map_map]
        rfl
    · refine ⟨(Flags.groupedCandidates db rID).mergeSort Flags.candidateLE,
        List.mergeSort_perm _ _,
        List.sorted_mergeSort candidateLE_trans candidateLE_total _, ?_⟩
      rfl
    · show ((Flags.groupedCandidates db rID).mergeSort Flags.candidateLE).take
          Flags.MAX_CANDIDATES = [] ↔
        (Flags.projectFlags db rID).filter Flags.eligibleCanonical = []
      rw [take_mergeSort_eq_nil_iff, Flags.groupedCandidates]
      simp only [List.map_eq_nil_iff, List.dedup_eq_nil]
    · exact ⟨rfl, rfl, rfl⟩
  · have hcs : Flags.canonicalizeReportId (⟨[], [], [], [{ reportId := "R1", userId := "u1", canonicalReportId := some "R2", weight := some 5, createdAt := 1, updatedAt := 1 }], 0⟩ : DB) "R1" false = Except.ok "R1" := by decide
    simp +decide [Flags.getDuplicateTotals, hcs, bind, Except.bind, pure, Except.pure,
      Flags.projectFlags, Flags.eligibleCanonical, Flags.DEFAULT_WEIGHT,
      Flags.MAX_CANDIDATES, List.mergeSort_singleton, List.filter, List.dedup]

/-- Closed witness for `getDuplicateTotals_spec`: one flag `R1 → R2` of weight 5. -/
theorem getDuplicateTotals_spec_witness :
    Flags.canonicalizeReportId (⟨[], [], [], [{ reportId := "R1", userId := "u1", canonicalReportId := some "R2", weight := some 5, createdAt := 1, updatedAt := 1 }], 0⟩ : DB) "R1" false = .ok "R1" ∧
    (∃ t, Flags.getDuplicateTotals (⟨[], [], [], [{ reportId := "R1", userId := "u1", canonicalReportId := some "R2", weight := some 5, createdAt := 1, updatedAt := 1 }], 0⟩ : DB) "R1" false = .ok t) ∧
    (∀ t, Flags.getDuplicateTotals (⟨[], [], [], [{ reportId := "R1", userId := "u1", canonicalReportId := some "R2", weight := some 5, createdAt := 1, updatedAt := 1 }], 0⟩ : DB) "R1" false = .ok t →
      t.flagCount = (DB.duplicateFlags (⟨[], [], [], [{ reportId := "R1", userId := "u1", canonicalReportId := some "R2", weight := some 5, createdAt := 1, updatedAt := 1 }], 0⟩ : DB) |>.filter (fun f => f.reportId == "R1")).length ∧
      t.weightTotal = ((DB.duplicateFlags (⟨[], [], [], [{ reportId := "R1", userId := "u1", canonicalReportId := some "R2", weight := some 5, createdAt := 1, updatedAt := 1 }], 0⟩ : DB) |>.filter (fun f => f.reportId == "R1")).map (fun f => f.weight.getD Flags.DEFAULT_WEIGHT)).sum ∧
      t.candidates.length ≤ Flags.MAX_CANDIDATES ∧
      t.candidates.Pairwise (fun a b => Flags.candidateLE a b = true) ∧
      (∀ c ∈ t.candidates, c.canonicalReportId ≠ "" ∧
        c.count = ((DB.duplicateFlags (⟨[], [], [], [{ reportId := "R1", userId := "u1", canonicalReportId := some "R2", weight := some 5, createdAt := 1, updatedAt := 1 }], 0⟩ : DB) |>.filter (fun f => f.reportId == "R1")).filter (fun f => f.canonicalReportId == some c.canonicalReportId)).length ∧
        c.weight = (((DB.duplicateFlags (⟨[], [], [], [{ reportId := "R1", userId := "u1", canonicalReportId := some "R2", weight := some 5, createdAt := 1, updatedAt := 1 }], 0⟩ : DB) |>.filter (fun f => f.reportId == "R1")).filter (fun f => f.canonicalReportId == some c.canonicalReportId)).map (fun f => f.weight.getD Flags.DEFAULT_WEIGHT)).sum) ∧
      (∃ all : List Flags.Candidate, all.Perm (Flags.groupedCandidates (⟨[], [], [], [{ reportId := "R1", userId := "u1", canonicalReportId := some "R2", weight := some 5, createdAt := 1, updatedAt := 1 }], 0⟩ : DB) "R1") ∧
        all.Pairwise (fun a b => Flags.candidateLE a b = true) ∧
        t.candidates = all.take Flags.MAX_CANDIDATES) ∧
      (t.candidates = [] ↔
        (Flags.projectFlags (⟨[], [], [], [{ reportId := "R1", userId := "u1", canonicalReportId := some "R2", weight := some 5, createdAt := 1, updatedAt := 1 }], 0⟩ : DB) "R1").filter Flags.eligibleCanonical = []) ∧
      (t.topCandidateReportId = (t.candidates.head?.map (fun c => c.canonicalReportId)).getD "" ∧
       t.topCandidateCount = (t.candidates.head?.map (fun c => c.count)).getD 0 ∧
       t.topCandidateWeight = (t.candidates.head?.map (fun c => c.weight)).getD 0)) ∧
    Flags.getDuplicateTotals (⟨[], [], [], [{ reportId := "R1", userId := "u1", canonicalReportId := some "R2", weight := some 5, createdAt := 1, updatedAt := 1 }], 0⟩ : DB) "R1" false =
      .ok { flagCount := 1, weightTotal := 5, topCandidateReportId := "R2",
            topCandidateCount := 1, topCandidateWeight := 5,
            candidates := [{ canonicalReportId := "R2", count := 1, weight := 5 }] } := by
  refine ⟨by decide, ?_⟩
  exact getDuplicateTotals_spec (⟨[], [], [], [{ reportId := "R1", userId := "u1", canonicalReportId := some "R2", weight := some 5, createdAt := 1, updatedAt := 1 }], 0⟩ : DB) "R1" "R1" (by decide)

/-- A normalized id passes `normalizeReportId` of reportsAdmin.js unchanged. -/
theorem admin_normalizeReportId_of_norm {s : String} (h : NormId s) :
    Admin.normalizeReportId s = .ok s := by
  obtain ⟨h1, h2, h3⟩ := h
  simp [Admin.normalizeReportId, h1, h2, Nat.not_lt.2 h3]

/-- **C8.** `mergeDuplicateReports(keepReportId, dupReportId)` fails with
`InvalidArgument` (400) when the two ids coincide or when the two reports differ in
`(targetType, targetId)`, with `NotFound` (404) when either report does not exist, and
with `Conflict` (409) when the duplicate report already has a non-empty `mergedInto`
pointing at a different keep target, or when the keep report has a non-empty
`mergedInto` at all; in every such failure the returned database is the unchanged
input database — the status/annotation writes and the cache refresh happen only after
every guard has passed and the vote migration has completed. -/
theorem mergeDuplicateReports_guards (db : DB) (keepReportId dupReportId : String)
    (now : Nat) (hk : NormId keepReportId) (hd : NormId dupReportId) :
    (keepReportId = dupReportId →
      Admin.mergeDuplicateReports db keepReportId dupReportId now =
        (.error (makeError "keepReportId and dupReportId must be different" 400), db)) ∧
    (keepReportId ≠ dupReportId →
      (db.reports.find? (fun r => r.reportId == keepReportId) = none →
        Admin.mergeDuplicateReports db keepReportId dupReportId now =
          (.error (makeError ("Keep report not found: " ++ keepReportId) 404), db)) ∧
      (∀ keep, db.reports.find? (fun r => r.reportId == keepReportId) = some keep →
        (db.reports.find? (fun r => r.reportId == dupReportId) = none →
          Admin.mergeDuplicateReports db keepReportId dupReportId now =
            (.error (makeError ("Duplicate report not found: " ++ dupReportId) 404), db)) ∧
        (∀ dup, db.reports.find? (fun r => r.reportId == dupReportId) = some dup →
          ((keep.targetType ≠ dup.targetType ∨ keep.targetId ≠ dup.targetId) →
            Admin.mergeDuplicateReports db keepReportId dupReportId now =
              (.error (makeError "Cannot merge reports with different targets (targetType/targetId must match)." 400), db)) ∧
          (keep.targetType = dup.targetType → keep.targetId = dup.targetId →
            (∀ m, dup.mergedInto = some m → m ≠ "" → m ≠ keepReportId →
              Admin.mergeDuplicateReports db keepReportId dupReportId now =
                (.error (makeError ("Duplicate report is already merged into " ++ m) 409), db)) ∧
            ((dup.mergedInto = none ∨ dup.mergedInto = some "" ∨
                dup.mergedInto = some keepReportId) →
              ∀ m, keep.mergedInto = some m → m ≠ "" →
                Admin.mergeDuplicateReports db keepReportId dupReportId now =
                  (.error (makeError "Keep report is itself marked as merged; choose a canonical keep report." 409), db)))))) := by
  have hnk := admin_normalizeReportId_of_norm hk
  have hnd := admin_normalizeReportId_of_norm hd
  refine ⟨?_, fun hne => ⟨?_, fun keep hkeep => ⟨?_, fun dup hdup => ⟨?_, fun ht1 ht2 => ⟨?_, ?_⟩⟩⟩⟩⟩
  · intro he
    simp [Admin.mergeDuplicateReports, hnk, hnd, he]
  · intro hnone
    simp [Admin.mergeDuplicateReports, hnk, hnd, hne, hnone]
  · intro hnone
    simp [Admin.mergeDuplicateReports, hnk, hnd, hne, hkeep, hnone]
  · intro hmis
    simp [Admin.mergeDuplicateReports, hnk, hnd, hne, hkeep, hdup, hmis]
  · intro m hm hm1 hm2
    simp [Admin.mergeDuplicateReports, hnk, hnd, hne, hkeep, hdup, ht1, ht2, hm,
          bne_iff_ne, hm1, hm2]
  · rintro hdm m hm hm1
    rcases hdm with h | h | h <;>
      simp [Admin.mergeDuplicateReports, hnk, hnd, hne, hkeep, hdup, ht1, ht2, h, hm,
            bne_iff_ne, hm1]

/-- Closed witness for `mergeDuplicateReports_guards`: the same-id 400, the missing-keep
404 and the already-merged 409 on a concrete database, each leaving it unchanged. -/
theorem mergeDuplicateReports_guards_witness :
    NormId "K" ∧ NormId "D" ∧ NormId "Z" ∧
    Admin.mergeDuplicateReports mergeGuardsDB "K" "K" 7 =
      (.error (makeError "keepReportId and dupReportId must be different" 400), mergeGuardsDB) ∧
    Admin.mergeDuplicateReports mergeGuardsDB "Z" "D" 7 =
      (.error (makeError ("Keep report not found: " ++ "Z") 404), mergeGuardsDB) ∧
    Admin.mergeDuplicateReports mergeGuardsDB "K" "D" 7 =
      (.error (makeError ("Duplicate report is already merged into " ++ "X") 409), mergeGuardsDB) := by
  refine ⟨by decide, by decide, by decide, ?_, ?_, ?_⟩
  · exact (mergeDuplicateReports_guards mergeGuardsDB "K" "K" 7 (by decide) (by decide)).1 rfl
  · exact ((mergeDuplicateReports_guards mergeGuardsDB "Z" "D" 7 (by decide)
      (by decide)).2 (by decide)).1 (by decide)
  · exact (((((mergeDuplicateReports_guards mergeGuardsDB "K" "D" 7 (by decide)
      (by decide)).2 (by decide)).2
      ⟨"m1", "K", "post", "p1", "active", none, [], none, none, none⟩ (by decide)).2
      ⟨"m2", "D", "post", "p1", "active", some "X", [], none, none, none⟩ (by decide)).2
      rfl rfl).1 "X" rfl (by decide) (by decide)

/-! ## Merge toolbox -/

/-- A normalized id passes `normalizeReportId` of reports.js unchanged. -/
theorem reports_normalizeReportId_of_norm {s : String} (h : NormId s) :
    Reports.normalizeReportId s = .ok s := by
  obtain ⟨h1, h2, h3⟩ := h
  simp [Reports.normalizeReportId, assertNonEmptyString, h1, h2, Nat.not_lt.2 h3,
        bind, Except.bind, pure, Except.pure, throw, throwThe, MonadExceptOf.throw]

/-- `find?` stays successful across an `updateFirst` whose update does not change the
searched predicate. -/
theorem find?_isSome_updateFirst {α : Type} {p q : α → Bool} {f : α → α}
    (hp : ∀ x, p (f x) = p x) {l : List α} (h : (l.find? p).isSome = true) :
    ((updateFirst q f l).find? p).isSome = true := by
  induction l with
  | nil => simp at h
  | cons x xs ih =>
    by_cases hpx : p x = true
    · by_cases hq : q x = true <;>
        simp [updateFirst, hq, List.find?_cons, hpx, hp x]
    · rw [List.find?_cons_of_neg _ (by simpa using hpx)] at h
      by_cases hq : q x = true
      · have hfx : ¬ (p (f x) = true) := by rw [hp x]; exact hpx
        rw [show updateFirst q f (x :: xs) = f x :: xs by simp [updateFirst, hq],
            List.find?_cons_of_neg _ hfx]
        exact h
      · rw [show updateFirst q f (x :: xs) = x :: updateFirst q f xs by
            simp [updateFirst, hq],
            List.find?_cons_of_neg _ (by simpa using hpx)]
        exact ih h

/-- Erasing rows that are all kept by a filter commutes with the filter. -/
theorem eraseP_filter_comm {α : Type} {p q : α → Bool} {l : List α}
    (h : ∀ x ∈ l, q x = true → p x = true) :
    (l.eraseP q).filter p = (l.filter p).eraseP q := by
  induction l with
  | nil => rfl
  | cons x xs ih =>
    have ih' := ih fun y hy hqy => h y (List.mem_cons_of_mem x hy) hqy
    by_cases hq : q x = true
    · have hp := h x (List.mem_cons_self x xs) hq
      simp [List.eraseP_cons, hq, List.filter_cons, hp]
    · by_cases hpx : p x = true
      · simp [List.eraseP_cons, hq, List.filter_cons, hpx, ih']
      · simp [List.eraseP_cons, hq, List.filter_cons, hpx, ih']

/-- An `updateFirst` whose target rows pass the filter before the update but fail it
afterwards acts on the filtered list as an `eraseP`. -/
theorem filter_updateFirst_kick {α : Type} {p q : α → Bool} {f : α → α} {l : List α}
    (h : ∀ x ∈ l, q x = true → p x = true ∧ p (f x) = false) :
    (updateFirst q f l).filter p = (l.filter p).eraseP q := by
  induction l with
  | nil => rfl
  | cons x xs ih =>
    have ih' := ih fun y hy hqy => h y (List.mem_cons_of_mem x hy) hqy
    by_cases hq : q x = true
    · have hh := h x (List.mem_cons_self x xs) hq
      simp [updateFirst, hq, List.filter_cons, hh.1, hh.2, List.eraseP_cons]
    · by_cases hpx : p x = true
      · simp [updateFirst, hq, List.filter_cons, hpx, List.eraseP_cons, ih']
      · simp [updateFirst, hq, List.filter_cons, hpx, ih']

/-- An `updateFirst` that turns its (first-found) target row from filtered-out to
filtered-in adds exactly that updated row to the filtered list, up to permutation. -/
theorem filter_updateFirst_perm_gain {α : Type} {p q : α → Bool} {f : α → α}
    {l : List α} {a : α}
    (hfind : l.find? q = some a) (hpa : p a = false) (hpfa : p (f a) = true) :
    ((updateFirst q f l).filter p).Perm (f a :: l.filter p) := by
  induction l with
  | nil => cases hfind
  | cons x xs ih =>
    by_cases hq : q x = true
    · rw [List.find?_cons_of_pos _ hq] at hfind
      cases hfind
      simp [updateFirst, hq, List.filter_cons, hpa, hpfa]
    · rw [List.find?_cons_of_neg _ hq] at hfind
      by_cases hpx : p x = true
      · rw [show updateFirst q f (x :: xs) = x :: updateFirst q f xs by
            simp [updateFirst, hq],
          List.filter_cons_of_pos hpx, List.filter_cons_of_pos hpx]
        exact ((ih hfind).cons x).trans (List.Perm.swap _ _ _)
      · rw [show updateFirst q f (x :: xs) = x :: updateFirst q f xs by
            simp [updateFirst, hq],
          List.filter_cons_of_neg (by simpa using hpx),
          List.filter_cons_of_neg (by simpa using hpx)]
        exact ih hfind

/-- `find?` returns the unique matching element. -/
theorem find?_eq_some_of_mem_unique {α : Type} {q : α → Bool} {l : List α} {a : α}
    (ha : a ∈ l) (hqa : q a = true) (huniq : ∀ x ∈ l, q x = true → x = a) :
    l.find? q = some a := by
  induction l with
  | nil => cases ha
  | cons x xs ih =>
    by_cases hq : q x = true
    · rw [List.find?_cons_of_pos _ hq, huniq x (List.mem_cons_self x xs) hq]
    · rw [List.find?_cons_of_neg _ hq]
      rcases List.mem_cons.1 ha with rfl | hmem
      · exact absurd hqa hq
      · exact ih hmem fun y hy hqy => huniq y (List.mem_cons_of_mem x hy) hqy

/-- When every guard passes, `mergeDuplicateReports` succeeds: it returns the two
normalized ids together with the counters of the migration loop, and the final
database's vote ledger is exactly the loop's output (the tail of the function only
touches the `reports` collection). -/
theorem mergeDuplicateReports_success (db : DB) (keepId dupId : String) (now : Nat)
    (keep dup : Report)
    (hk : NormId keepId) (hd : NormId dupId) (hne : keepId ≠ dupId)
    (hkeep : db.reports.find? (fun r => r.reportId == keepId) = some keep)
    (hdup : db.reports.find? (fun r => r.reportId == dupId) = some dup)
    (ht1 : keep.targetType = dup.targetType) (ht2 : keep.targetId = dup.targetId)
    (hdm : dup.mergedInto = none) (hkm : keep.mergedInto = none) :
    ∃ t db2, Admin.mergeDuplicateReports db keepId dupId now =
        (.ok { keepReportId := keepId, dupReportId := dupId,
               voteMoveSummary := ((db.votes.filter (fun r => r.reportId == dupId)).foldl
                 (Admin.migrateVoteStep keepId now)
                 (db.votes,
                  { moved := 0, overwritten := 0, deleted := 0, invalid := 0 })).2,
               totals := t }, db2) ∧
      db2.votes = ((db.votes.filter (fun r => r.reportId == dupId)).foldl
        (Admin.migrateVoteStep keepId now)
        (db.votes, { moved := 0, overwritten := 0, deleted := 0, invalid := 0 })).1 := by
  have hnk := admin_normalizeReportId_of_norm hk
  have hnd := admin_normalizeReportId_of_norm hd
  have hkeepSome : (db.reports.find? (fun r => r.reportId == keepId)).isSome = true := by
    rw [hkeep]; rfl
  simp only [Admin.mergeDuplicateReports, hnk, hnd, if_neg hne, hkeep, hdup]
  rw [if_neg (by simp [ht1, ht2])]
  rw [if_neg (by simp [hdm])]
  rw [if_neg (by simp [hkm])]
  rw [getTotalVotes_eq _ hk]
  simp only [Reports.updateReportVotes, reports_normalizeReportId_of_norm hk, bind,
    Except.bind, pure, Except.pure]
  have hcond : ((updateFirst (fun r => r.reportId == keepId)
      (fun r => { r with
        mergedFrom := if r.mergedFrom.contains dupId = true then r.mergedFrom else r.mergedFrom ++ [dupId],
        updatedAt := some now })
      (updateFirst (fun r => r.reportId == dupId)
        (fun r => { r with status := "hidden", mergedInto := some keepId, moderatedAt := some now, updatedAt := some now })
        db.reports)).find? (fun r => r.reportId == keepId)).isSome = true :=
    find?_isSome_updateFirst (by intro x; rfl)
      (find?_isSome_updateFirst (by intro x; rfl) hkeepSome)
  rw [if_pos hcond]
  exact ⟨_, _, rfl, rfl⟩

/-! ## Claim C1 — merge conflict resolution by recency -/

/-- **C1.**  In `mergeDuplicateReports(keepReportId, dupReportId)`, a dup-side vote row
whose user already has a vote under the keep report is resolved by comparing the
update timestamps (falling back to the creation timestamps): when the dup-side vote is
strictly more recent it wins and its value and weight are written onto the keep-side
row, otherwise — including on a timestamp tie — the keep-side row is preferred and
stays untouched; in either case the dup-side row itself is removed.  The returned
`voteMoveSummary` counts every such conflict-resolved dup row as `deleted`, and
*additionally* as `overwritten` exactly when the dup-side value won (the two counters
are not mutually exclusive); a dup-side row with a missing user id or a vote outside
`{+1, -1}` is dropped and counted as `invalid`. -/
theorem mergeDuplicateReports_conflict (db : DB) (keepId dupId : String) (now : Nat)
    (keep dup : Report) (dv : VoteRow)
    (hk : NormId keepId) (hd : NormId dupId) (hne : keepId ≠ dupId)
    (hkeep : db.reports.find? (fun r => r.reportId == keepId) = some keep)
    (hdup : db.reports.find? (fun r => r.reportId == dupId) = some dup)
    (ht1 : keep.targetType = dup.targetType) (ht2 : keep.targetId = dup.targetId)
    (hdm : dup.mergedInto = none) (hkm : keep.mergedInto = none)
    (hdv : db.votes.filter (fun r => r.reportId == dupId) = [dv]) :
    (∀ ex, ValidDupVote dv →
      db.votes.find? (fun r => r.reportId == keepId && r.userId == some (dvUser dv)) =
        some ex →
      (toDateSafe (ex.updatedAt <|> ex.createdAt) <
          toDateSafe (dv.updatedAt <|> dv.createdAt) →
        (∃ res, (Admin.mergeDuplicateReports db keepId dupId now).1 = .ok res ∧
          res.voteMoveSummary =
            { moved := 0, overwritten := 1, deleted := 1, invalid := 0 }) ∧
        (Admin.mergeDuplicateReports db keepId dupId now).2.votes =
          (updateFirst (fun r => r.vid == ex.vid)
            (fun r => { r with vote := dv.vote, weight := some (toFiniteNumber dv.weight 1), updatedAt := some (dv.updatedAt.getD now) })
            db.votes).eraseP (fun r => r.vid == dv.vid)) ∧
      (¬ toDateSafe (ex.updatedAt <|> ex.createdAt) <
          toDateSafe (dv.updatedAt <|> dv.createdAt) →
        (∃ res, (Admin.mergeDuplicateReports db keepId dupId now).1 = .ok res ∧
          res.voteMoveSummary =
            { moved := 0, overwritten := 0, deleted := 1, invalid := 0 }) ∧
        (Admin.mergeDuplicateReports db keepId dupId now).2.votes =
          db.votes.eraseP (fun r => r.vid == dv.vid))) ∧
    (¬ ValidDupVote dv →
      (∃ res, (Admin.mergeDuplicateReports db keepId dupId now).1 = .ok res ∧
        res.voteMoveSummary =
          { moved := 0, overwritten := 0, deleted := 0, invalid := 1 }) ∧
      (Admin.mergeDuplicateReports db keepId dupId now).2.votes =
        db.votes.eraseP (fun r => r.vid == dv.vid)) := by
  obtain ⟨t, db2, hrun, hvotes⟩ :=
    mergeDuplicateReports_success db keepId dupId now keep dup hk hd hne hkeep hdup
      ht1 ht2 hdm hkm
  rw [hdv, List.foldl_cons, List.foldl_nil] at hrun hvotes
  constructor
  · intro ex hval hex
    obtain ⟨u, hu⟩ : ∃ u, dv.userId = some u := by
      cases hdu : dv.userId with
      | some w => exact ⟨w, rfl⟩
      | none => exact absurd (by simp [dvUser, hdu]) hval.1
    have hud : dvUser dv = jsTrim u := by simp [dvUser, hu]
    rw [hud] at hex
    have hune : ¬ (jsTrim u = "") := by rw [← hud]; exact hval.1
    have hvv : ¬ (dv.vote ≠ 1 ∧ dv.vote ≠ -1) := by
      rcases hval.2 with h | h <;> simp [h]
    constructor
    · intro hT
      have hstep : Admin.migrateVoteStep keepId now
          (db.votes, { moved := 0, overwritten := 0, deleted := 0, invalid := 0 }) dv =
          ((updateFirst (fun r => r.vid == ex.vid)
             (fun r => { r with vote := dv.vote, weight := some (toFiniteNumber dv.weight 1), updatedAt := some (dv.updatedAt.getD now) })
             db.votes).eraseP (fun r => r.vid == dv.vid),
           { moved := 0, overwritten := 1, deleted := 1, invalid := 0 }) := by
        simp [Admin.migrateVoteStep, hu, hune, hvv, hex, hT]
      rw [hstep] at hrun hvotes
      exact ⟨⟨_, by rw [hrun], rfl⟩, by rw [hrun]; exact hvotes⟩
    · intro hT
      have hstep : Admin.migrateVoteStep keepId now
          (db.votes, { moved := 0, overwritten := 0, deleted := 0, invalid := 0 }) dv =
          (db.votes.eraseP (fun r => r.vid == dv.vid),
           { moved := 0, overwritten := 0, deleted := 1, invalid := 0 }) := by
        simp [Admin.migrateVoteStep, hu, hune, hvv, hex, hT]
      rw [hstep] at hrun hvotes
      exact ⟨⟨_, by rw [hrun], rfl⟩, by rw [hrun]; exact hvotes⟩
  · intro hinv
    have hstep : Admin.migrateVoteStep keepId now
        (db.votes, { moved := 0, overwritten := 0, deleted := 0, invalid := 0 }) dv =
        (db.votes.eraseP (fun r => r.vid == dv.vid),
         { moved := 0, overwritten := 0, deleted := 0, invalid := 1 }) := by
      cases hdu : dv.userId with
      | none => simp [Admin.migrateVoteStep, hdu]
      | some w =>
        by_cases hw : jsTrim w = ""
        · simp [Admin.migrateVoteStep, hdu, hw]
        · have hbad : dv.vote ≠ 1 ∧ dv.vote ≠ -1 := by
            by_contra hc
            push_neg at hc
            apply hinv
            refine ⟨by simp [dvUser, hdu, hw], ?_⟩
            by_cases h1 : dv.vote = 1
            · exact .inl h1
            · exact .inr (hc h1)
          simp [Admin.migrateVoteStep, hdu, hw, hbad]
    rw [hstep] at hrun hvotes
    exact ⟨⟨_, by rw [hrun], rfl⟩, by rw [hrun]; exact hvotes⟩

/-- Counterexample to the exclusive counter accounting of the original claim: on a
merge whose single dup-side row wins its conflict by recency, the returned
`voteMoveSummary` reports the row as `overwritten` *and* as `deleted`
(`overwritten = 1, deleted = 1`) — under the claim's accounting ("counted as
overwritten if the dup-side value won, else simply counted as deleted") `deleted`
would be `0` here. -/
theorem mergeDuplicateReports_overwritten_also_deleted_counterexample :
    ∃ res, (Admin.mergeDuplicateReports mergeConflictDB "K" "D" 100).1 = .ok res ∧
      res.voteMoveSummary.moved = 0 ∧
      res.voteMoveSummary.overwritten = 1 ∧
      res.voteMoveSummary.deleted = 1 ∧
      res.voteMoveSummary.invalid = 0 := by
  obtain ⟨t, db2, hrun, hv⟩ := mergeDuplicateReports_success mergeConflictDB "K" "D" 100
    ⟨"m1", "K", "post", "p1", "active", none, [], none, none, none⟩
    ⟨"m2", "D", "post", "p1", "active", none, [], none, none, none⟩
    (by decide) (by decide) (by decide) (by decide) (by decide) rfl rfl rfl rfl
  have hsum : ((mergeConflictDB.votes.filter (fun r => r.reportId == "D")).foldl
      (Admin.migrateVoteStep "K" 100)
      (mergeConflictDB.votes,
       { moved := 0, overwritten := 0, deleted := 0, invalid := 0 })).2 =
      { moved := 0, overwritten := 1, deleted := 1, invalid := 0 } := by decide
  rw [hsum] at hrun
  exact ⟨_, by rw [hrun], rfl, rfl, rfl, rfl⟩

/-- Closed witness for `mergeDuplicateReports_conflict`: the concrete conflict
scenario where user `u1` has a vote on both sides. -/
theorem mergeDuplicateReports_conflict_witness :
    NormId "K" ∧ NormId "D" ∧ ("K" : String) ≠ "D" ∧
    mergeConflictDB.reports.find? (fun r => r.reportId == "K") =
      some ⟨"m1", "K", "post", "p1", "active", none, [], none, none, none⟩ ∧
    mergeConflictDB.reports.find? (fun r => r.reportId == "D") =
      some ⟨"m2", "D", "post", "p1", "active", none, [], none, none, none⟩ ∧
    mergeConflictDB.votes.filter (fun r => r.reportId == "D") = [dvConflict] ∧
    (∀ ex, ValidDupVote dvConflict →
      mergeConflictDB.votes.find? (fun r => r.reportId == "K" && r.userId == some (dvUser dvConflict)) =
        some ex →
      (toDateSafe (ex.updatedAt <|> ex.createdAt) <
          toDateSafe (dvConflict.updatedAt <|> dvConflict.createdAt) →
        (∃ res, (Admin.mergeDuplicateReports mergeConflictDB "K" "D" 100).1 = .ok res ∧
          res.voteMoveSummary =
            { moved := 0, overwritten := 1, deleted := 1, invalid := 0 }) ∧
        (Admin.mergeDuplicateReports mergeConflictDB "K" "D" 100).2.votes =
          (updateFirst (fun r => r.vid == ex.vid)
            (fun r => { r with vote := dvConflict.vote, weight := some (toFiniteNumber dvConflict.weight 1), updatedAt := some (dvConflict.updatedAt.getD 100) })
            mergeConflictDB.votes).eraseP (fun r => r.vid == dvConflict.vid)) ∧
      (¬ toDateSafe (ex.updatedAt <|> ex.createdAt) <
          toDateSafe (dvConflict.updatedAt <|> dvConflict.createdAt) →
        (∃ res, (Admin.mergeDuplicateReports mergeConflictDB "K" "D" 100).1 = .ok res ∧
          res.voteMoveSummary =
            { moved := 0, overwritten := 0, deleted := 1, invalid := 0 }) ∧
        (Admin.mergeDuplicateReports mergeConflictDB "K" "D" 100).2.votes =
          mergeConflictDB.votes.eraseP (fun r => r.vid == dvConflict.vid))) ∧
    (¬ ValidDupVote dvConflict →
      (∃ res, (Admin.mergeDuplicateReports mergeConflictDB "K" "D" 100).1 = .ok res ∧
        res.voteMoveSummary =
          { moved := 0, overwritten := 0, deleted := 0, invalid := 1 }) ∧
      (Admin.mergeDuplicateReports mergeConflictDB "K" "D" 100).2.votes =
        mergeConflictDB.votes.eraseP (fun r => r.vid == dvConflict.vid)) := by
  refine ⟨by decide, by decide, by decide, by decide, by decide, by decide, ?_⟩
  exact mergeDuplicateReports_conflict mergeConflictDB "K" "D" 100
    ⟨"m1", "K", "post", "p1", "active", none, [], none, none, none⟩
    ⟨"m2", "D", "post", "p1", "active", none, [], none, none, none⟩
    dvConflict (by decide) (by decide) (by decide) (by decide) (by decide)
    rfl rfl rfl rfl (by decide)

/-! ## Claim C2 — merge conservation -/

/-- The migration loop of `mergeDuplicateReports`, run on the snapshot of the
duplicate's vote rows, leaves no vote row under `dupId`: every dup-side row is either
re-homed to `keepId` or erased, whichever branch of the loop body it takes.  Stated
for any tail `todo` of the snapshot, with `todo` exactly the dup-side rows of the
current ledger `cur` and the row ids (`vid`) of `cur` pairwise distinct. -/
theorem migrate_clears_dup (keepId dupId : String) (now : Nat) (hne : keepId ≠ dupId) :
    ∀ (todo cur : List VoteRow) (c : Admin.MoveCounters),
      (cur.map (fun r => r.vid)).Nodup →
      cur.filter (fun r => r.reportId == dupId) = todo →
      ((todo.foldl (Admin.migrateVoteStep keepId now) (cur, c)).1.filter
        (fun r => r.reportId == dupId)) = [] := by
  intro todo
  induction todo with
  | nil =>
    intro cur c hnd hfil
    simpa using hfil
  | cons dv todo' ih =>
    intro cur c hnd hfil
    have hmemf : dv ∈ cur.filter (fun r => r.reportId == dupId) := by
      rw [hfil]; exact List.mem_cons_self dv todo'
    have hdvmem : dv ∈ cur := List.mem_of_mem_filter hmemf
    have hdvdup := List.of_mem_filter hmemf
    have hinj : ∀ x ∈ cur, ∀ y ∈ cur, x.vid = y.vid → x = y :=
      List.inj_on_of_nodup_map hnd
    have hq_dv : ∀ x ∈ cur, (x.vid == dv.vid) = true → x = dv :=
      fun x hx hxe => hinj x hx dv hdvmem (by simpa using hxe)
    have herase_nodup :
        ((cur.eraseP (fun r => r.vid == dv.vid)).map (fun r => r.vid)).Nodup :=
      ((List.eraseP_sublist cur).map (fun r => r.vid)).nodup hnd
    have herase_filter :
        (cur.eraseP (fun r => r.vid == dv.vid)).filter (fun r => r.reportId == dupId) =
          todo' := by
      rw [eraseP_filter_comm (fun x hx hq => by rw [hq_dv x hx hq]; exact hdvdup), hfil,
        List.eraseP_cons_of_pos (by simp)]
    rw [List.foldl_cons]
    cases hdu : dv.userId with
    | none =>
      rw [show Admin.migrateVoteStep keepId now (cur, c) dv =
          (cur.eraseP (fun r => r.vid == dv.vid), { c with invalid := c.invalid + 1 })
        by simp [Admin.migrateVoteStep, hdu]]
      exact ih _ _ herase_nodup herase_filter
    | some w =>
      by_cases hw : jsTrim w = ""
      · rw [show Admin.migrateVoteStep keepId now (cur, c) dv =
            (cur.eraseP (fun r => r.vid == dv.vid), { c with invalid := c.invalid + 1 })
          by simp [Admin.migrateVoteStep, hdu, hw]]
        exact ih _ _ herase_nodup herase_filter
      · by_cases hvot : dv.vote ≠ 1 ∧ dv.vote ≠ -1
        · rw [show Admin.migrateVoteStep keepId now (cur, c) dv =
              (cur.eraseP (fun r => r.vid == dv.vid),
               { c with invalid := c.invalid + 1 })
            by simp [Admin.migrateVoteStep, hdu, hw, hvot]]
          exact ih _ _ herase_nodup herase_filter
        · cases hfind : cur.find?
              (fun r => r.reportId == keepId && r.userId == some (jsTrim w)) with
          | none =>
            have hmvdef : ∃ mv : VoteRow → VoteRow, (∀ x, (mv x).vid = x.vid) ∧
                (∀ x, (mv x).reportId = keepId) ∧
                Admin.migrateVoteStep keepId now (cur, c) dv =
                  (updateFirst (fun r => r.vid == dv.vid) mv cur,
                   { c with moved := c.moved + 1 }) := by
              refine ⟨fun r => { r with reportId := keepId, updatedAt := some (dv.updatedAt.getD now) },
                fun x => rfl, fun x => rfl, ?_⟩
              simp [Admin.migrateVoteStep, hdu, hw, hvot, hfind]
            obtain ⟨mv, hmvvid, hmvrep, hstep⟩ := hmvdef
            rw [hstep]
            have hmap : (updateFirst (fun r => r.vid == dv.vid) mv cur).map
                (fun r => r.vid) = cur.map (fun r => r.vid) :=
              map_updateFirst hmvvid cur
            refine ih _ _ ?_ ?_
            · rw [hmap]
              exact hnd
            · rw [filter_updateFirst_kick (fun x hx hq =>
                ⟨by rw [hq_dv x hx hq]; exact hdvdup, by simp [hmvrep x, hne]⟩), hfil,
                List.eraseP_cons_of_pos (by simp)]
          | some ex =>
            have hexmem : ex ∈ cur := List.mem_of_find?_eq_some hfind
            have hexpred := List.find?_some hfind
            have hexrep : ex.reportId = keepId := by
              simp only [Bool.and_eq_true, beq_iff_eq] at hexpred
              exact hexpred.1
            have hexne : ex.vid ≠ dv.vid := by
              intro hvid
              have hxd : ex = dv := hinj ex hexmem dv hdvmem hvid
              have hdvrep : dv.reportId = dupId := by simpa using hdvdup
              rw [hxd, hdvrep] at hexrep
              exact hne hexrep.symm
            by_cases hT : toDateSafe (ex.updatedAt <|> ex.createdAt) <
                toDateSafe (dv.updatedAt <|> dv.createdAt)
            · have howdef : ∃ ow : VoteRow → VoteRow, (∀ x, (ow x).vid = x.vid) ∧
                  (∀ x, (ow x).reportId = x.reportId) ∧
                  Admin.migrateVoteStep keepId now (cur, c) dv =
                    ((updateFirst (fun r => r.vid == ex.vid) ow cur).eraseP
                      (fun r => r.vid == dv.vid),
                     { c with overwritten := c.overwritten + 1,
                              deleted := c.deleted + 1 }) := by
                refine ⟨fun r => { r with vote := dv.vote, weight := some (toFiniteNumber dv.weight 1), updatedAt := some (dv.updatedAt.getD now) },
                  fun x => rfl, fun x => rfl, ?_⟩
                simp [Admin.migrateVoteStep, hdu, hw, hvot, hfind, hT]
              obtain ⟨ow, howvid, howrep, hstep⟩ := howdef
              rw [hstep]
              have hvis : (updateFirst (fun r => r.vid == ex.vid) ow cur).filter
                  (fun r => r.reportId == dupId) =
                  cur.filter (fun r => r.reportId == dupId) := by
                refine filter_updateFirst_invisible fun x hx hq => ?_
                have hxex : x = ex := hinj x hx ex hexmem (by simpa using hq)
                rw [hxex]
                constructor
                · simp [hexrep, hne]
                · simp [howrep, hexrep, hne]
              have hmap : (updateFirst (fun r => r.vid == ex.vid) ow cur).map
                  (fun r => r.vid) = cur.map (fun r => r.vid) :=
                map_updateFirst howvid cur
              have hnd1 : ((updateFirst (fun r => r.vid == ex.vid) ow cur).map
                  (fun r => r.vid)).Nodup := by
                rw [hmap]; exact hnd
              refine ih _ _ ?_ ?_
              · exact ((List.eraseP_sublist _).map _).nodup hnd1
              · rw [eraseP_filter_comm ?huniq, hvis, hfil,
                  List.eraseP_cons_of_pos (by simp)]
                intro x hx hq
                rcases mem_updateFirst hx with hxc | ⟨y, hy, hqy, hxy⟩
                · rw [hq_dv x hxc hq]; exact hdvdup
                · exfalso
                  have hyex : y = ex := hinj y hy ex hexmem (by simpa using hqy)
                  rw [hxy, beq_iff_eq, howvid y, hyex] at hq
                  exact hexne hq
            · rw [show Admin.migrateVoteStep keepId now (cur, c) dv =
                  (cur.eraseP (fun r => r.vid == dv.vid),
                   { c with deleted := c.deleted + 1 })
                by simp [Admin.migrateVoteStep, hdu, hw, hvot, hfind, hT]]
              exact ih _ _ herase_nodup herase_filter

/-- The migration loop on a snapshot of valid dup-side rows whose users do not overlap
the keep-side voters: every row is re-homed (counted `moved`), and the keep-side
ledger afterwards is — up to order — the old keep-side ledger plus every dup-side row
re-homed by `moveRow` (which keeps its vote value and weight). -/
theorem migrate_moves_all (keepId dupId : String) (now : Nat) (hne : keepId ≠ dupId) :
    ∀ (todo cur : List VoteRow) (c : Admin.MoveCounters),
      (cur.map (fun r => r.vid)).Nodup →
      cur.filter (fun r => r.reportId == dupId) = todo →
      (∀ dv ∈ todo, ∃ u, dv.userId = some u ∧ jsTrim u = u ∧ u ≠ "") →
      (∀ dv ∈ todo, dv.vote = 1 ∨ dv.vote = -1) →
      (todo.map (fun r => r.userId)).Nodup →
      (∀ dv ∈ todo, ∀ r ∈ cur, r.reportId = keepId → r.userId ≠ dv.userId) →
      (todo.foldl (Admin.migrateVoteStep keepId now) (cur, c)).2 =
          { c with moved := c.moved + todo.length } ∧
        ((todo.foldl (Admin.migrateVoteStep keepId now) (cur, c)).1.filter
          (fun r => r.reportId == keepId)).Perm
          (cur.filter (fun r => r.reportId == keepId) ++
           todo.map (moveRow keepId now)) := by
  intro todo
  induction todo with
  | nil =>
    intro cur c hnd hfil huser hvote husers hover
    constructor
    · simp
    · simp
  | cons dv todo' ih =>
    intro cur c hnd hfil huser hvote husers hover
    have hmemf : dv ∈ cur.filter (fun r => r.reportId == dupId) := by
      rw [hfil]; exact List.mem_cons_self dv todo'
    have hdvmem : dv ∈ cur := List.mem_of_mem_filter hmemf
    have hdvdup := List.of_mem_filter hmemf
    have hdvrep : dv.reportId = dupId := by simpa using hdvdup
    have hinj : ∀ x ∈ cur, ∀ y ∈ cur, x.vid = y.vid → x = y :=
      List.inj_on_of_nodup_map hnd
    have hq_dv : ∀ x ∈ cur, (x.vid == dv.vid) = true → x = dv :=
      fun x hx hxe => hinj x hx dv hdvmem (by simpa using hxe)
    obtain ⟨u, hu, hju, hune⟩ := huser dv (List.mem_cons_self dv todo')
    have hvot : ¬ (dv.vote ≠ 1 ∧ dv.vote ≠ -1) := by
      rcases hvote dv (List.mem_cons_self dv todo') with h | h <;> simp [h]
    have hnet : ¬ (jsTrim u = "") := by rw [hju]; exact hune
    have hfind : cur.find?
        (fun r => r.reportId == keepId && r.userId == some (jsTrim u)) = none := by
      rw [List.find?_eq_none]
      intro r hr hpred
      simp only [Bool.and_eq_true, beq_iff_eq] at hpred
      rw [hju] at hpred
      exact hover dv (List.mem_cons_self dv todo') r hr hpred.1 (by rw [hpred.2, hu])
    have hmvdef : ∃ mv : VoteRow → VoteRow, (∀ x, (mv x).vid = x.vid) ∧
        (∀ x, (mv x).reportId = keepId) ∧ (∀ x, (mv x).userId = x.userId) ∧
        mv dv = moveRow keepId now dv ∧
        Admin.migrateVoteStep keepId now (cur, c) dv =
          (updateFirst (fun r => r.vid == dv.vid) mv cur,
           { c with moved := c.moved + 1 }) := by
      refine ⟨fun r => { r with reportId := keepId, updatedAt := some (dv.updatedAt.getD now) },
        fun x => rfl, fun x => rfl, fun x => rfl, rfl, ?_⟩
      simp [Admin.migrateVoteStep, hu, hnet, hvot, hfind]
    obtain ⟨mv, hmvvid, hmvrep, hmvuser, hmvmove, hstep⟩ := hmvdef
    rw [List.foldl_cons, hstep]
    have hmap : (updateFirst (fun r => r.vid == dv.vid) mv cur).map
        (fun r => r.vid) = cur.map (fun r => r.vid) :=
      map_updateFirst hmvvid cur
    have hnd' : ((updateFirst (fun r => r.vid == dv.vid) mv cur).map
        (fun r => r.vid)).Nodup := by rw [hmap]; exact hnd
    have hfil' : (updateFirst (fun r => r.vid == dv.vid) mv cur).filter
        (fun r => r.reportId == dupId) = todo' := by
      rw [filter_updateFirst_kick (fun x hx hq =>
        ⟨by rw [hq_dv x hx hq]; exact hdvdup, by simp [hmvrep, hne]⟩), hfil,
        List.eraseP_cons_of_pos (by simp)]
    have husers' : (todo'.map (fun r => r.userId)).Nodup := by
      rw [List.map_cons] at husers
      exact (List.nodup_cons.1 husers).2
    have hhead : dv.userId ∉ todo'.map (fun r => r.userId) := by
      rw [List.map_cons] at husers
      exact (List.nodup_cons.1 husers).1
    have hover' : ∀ dv2 ∈ todo', ∀ r ∈ updateFirst (fun r => r.vid == dv.vid) mv cur,
        r.reportId = keepId → r.userId ≠ dv2.userId := by
      intro dv2 h2 r hr hrep
      rcases mem_updateFirst hr with hrc | ⟨y, hy, hqy, hry⟩
      · exact hover dv2 (List.mem_cons_of_mem dv h2) r hrc hrep
      · have hydv : y = dv := hq_dv y hy hqy
        rw [hry, hydv, hmvuser dv]
        intro heq
        exact hhead (heq ▸ List.mem_map_of_mem (fun r => r.userId) h2)
    obtain ⟨ih1, ih2⟩ := ih (updateFirst (fun r => r.vid == dv.vid) mv cur)
      { c with moved := c.moved + 1 } hnd' hfil'
      (fun d h => huser d (List.mem_cons_of_mem dv h))
      (fun d h => hvote d (List.mem_cons_of_mem dv h)) husers' hover'
    constructor
    · rw [ih1]
      congr 1
      simp [List.length_cons]
      omega
    · have hfind2 : cur.find? (fun r => r.vid == dv.vid) = some dv :=
        find?_eq_some_of_mem_unique hdvmem (by simp) hq_dv
      have hpa : (dv.reportId == keepId) = false := by
        rw [hdvrep]
        exact beq_eq_false_iff_ne.2 (Ne.symm hne)
      have hpfa : ((mv dv).reportId == keepId) = true := by
        rw [hmvrep dv]
        simp
      have hgain : ((updateFirst (fun r => r.vid == dv.vid) mv cur).filter
          (fun r => r.reportId == keepId)).Perm
          (mv dv :: cur.filter (fun r => r.reportId == keepId)) :=
        filter_updateFirst_perm_gain hfind2 hpa hpfa
      refine ih2.trans ?_
      refine (hgain.append_right (todo'.map (moveRow keepId now))).trans ?_
      rw [hmvmove, List.map_cons]
      exact List.perm_middle.symm

/-- **C2.**  For two reports that pass the merge preconditions (with pairwise-distinct
vote-row ids): after `mergeDuplicateReports` no vote row remains under the duplicate's
id — every dup-side row is moved or deleted — and, when every dup-side row has a valid
trimmed non-empty user, a vote in `{+1,-1}`, pairwise-distinct users, and no dup-side
user already votes on the keep report, the keep-side ledger afterwards is exactly (up
to order) the old keep ledger plus every dup-side row re-homed — keeping its vote
value, weight and user — and the summary counts them all as `moved`. -/
theorem mergeDuplicateReports_conservation (db : DB) (keepId dupId : String)
    (now : Nat) (keep dup : Report)
    (hk : NormId keepId) (hd : NormId dupId) (hne : keepId ≠ dupId)
    (hkeep : db.reports.find? (fun r => r.reportId == keepId) = some keep)
    (hdup : db.reports.find? (fun r => r.reportId == dupId) = some dup)
    (ht1 : keep.targetType = dup.targetType) (ht2 : keep.targetId = dup.targetId)
    (hdm : dup.mergedInto = none) (hkm : keep.mergedInto = none)
    (hnodup : (db.votes.map (fun r => r.vid)).Nodup) :
    ((∃ res db2, Admin.mergeDuplicateReports db keepId dupId now = (.ok res, db2) ∧
        db2.votes.filter (fun r => r.reportId == dupId) = []) ∧
     ((∀ dv ∈ db.votes.filter (fun r => r.reportId == dupId),
          ∃ u, dv.userId = some u ∧ jsTrim u = u ∧ u ≠ "") →
      (∀ dv ∈ db.votes.filter (fun r => r.reportId == dupId),
          dv.vote = 1 ∨ dv.vote = -1) →
      ((db.votes.filter (fun r => r.reportId == dupId)).map
          (fun r => r.userId)).Nodup →
      (∀ dv ∈ db.votes.filter (fun r => r.reportId == dupId),
          ∀ r ∈ db.votes, r.reportId = keepId → r.userId ≠ dv.userId) →
      ∃ res db2, Admin.mergeDuplicateReports db keepId dupId now = (.ok res, db2) ∧
        res.voteMoveSummary =
          { moved := (db.votes.filter (fun r => r.reportId == dupId)).length,
            overwritten := 0, deleted := 0, invalid := 0 } ∧
        db2.votes.filter (fun r => r.reportId == dupId) = [] ∧
        (db2.votes.filter (fun r => r.reportId == keepId)).Perm
          (db.votes.filter (fun r => r.reportId == keepId) ++
           (db.votes.filter (fun r => r.reportId == dupId)).map (moveRow keepId now)) ∧
        (∀ dv, (moveRow keepId now dv).vote = dv.vote ∧
          (moveRow keepId now dv).weight = dv.weight ∧
          (moveRow keepId now dv).userId = dv.userId))) := by
  obtain ⟨t, db2, hrun, hvotes⟩ := mergeDuplicateReports_success db keepId dupId now
    keep dup hk hd hne hkeep hdup ht1 ht2 hdm hkm
  constructor
  · refine ⟨_, _, hrun, ?_⟩
    rw [hvotes]
    exact migrate_clears_dup keepId dupId now hne _ db.votes _ hnodup rfl
  · intro h1 h2 h3 h4
    obtain ⟨hc, hp⟩ := migrate_moves_all keepId dupId now hne
      (db.votes.filter (fun r => r.reportId == dupId)) db.votes
      { moved := 0, overwritten := 0, deleted := 0, invalid := 0 } hnodup rfl h1 h2 h3 h4
    refine ⟨_, _, hrun, ?_, ?_, ?_, fun dv => ⟨rfl, rfl, rfl⟩⟩
    · simp [hc]
    · rw [hvotes]
      exact migrate_clears_dup keepId dupId now hne _ db.votes _ hnodup rfl
    · rw [hvotes]
      exact hp

/-- Closed witness for `mergeDuplicateReports_conservation`: merging `D` into `K` on a
concrete database where `u1` voted on `K` and `u2` voted on `D`. -/
theorem mergeDuplicateReports_conservation_witness :
    NormId "K" ∧ NormId "D" ∧ ("K" : String) ≠ "D" ∧
    mergeMoveDB.reports.find? (fun r => r.reportId == "K") =
      some ⟨"m1", "K", "post", "p1", "active", none, [], none, none, none⟩ ∧
    mergeMoveDB.reports.find? (fun r => r.reportId == "D") =
      some ⟨"m2", "D", "post", "p1", "active", none, [], none, none, none⟩ ∧
    (mergeMoveDB.votes.map (fun r => r.vid)).Nodup ∧
    ((∃ res db2, Admin.mergeDuplicateReports mergeMoveDB "K" "D" 50 = (.ok res, db2) ∧
        db2.votes.filter (fun r => r.reportId == "D") = []) ∧
     ((∀ dv ∈ mergeMoveDB.votes.filter (fun r => r.reportId == "D"),
          ∃ u, dv.userId = some u ∧ jsTrim u = u ∧ u ≠ "") →
      (∀ dv ∈ mergeMoveDB.votes.filter (fun r => r.reportId == "D"),
          dv.vote = 1 ∨ dv.vote = -1) →
      ((mergeMoveDB.votes.filter (fun r => r.reportId == "D")).map
          (fun r => r.userId)).Nodup →
      (∀ dv ∈ mergeMoveDB.votes.filter (fun r => r.reportId == "D"),
          ∀ r ∈ mergeMoveDB.votes, r.reportId = "K" → r.userId ≠ dv.userId) →
      ∃ res db2, Admin.mergeDuplicateReports mergeMoveDB "K" "D" 50 = (.ok res, db2) ∧
        res.voteMoveSummary =
          { moved := (mergeMoveDB.votes.filter (fun r => r.reportId == "D")).length,
            overwritten := 0, deleted := 0, invalid := 0 } ∧
        db2.votes.filter (fun r => r.reportId == "D") = [] ∧
        (db2.votes.filter (fun r => r.reportId == "K")).Perm
          (mergeMoveDB.votes.filter (fun r => r.reportId == "K") ++
           (mergeMoveDB.votes.filter (fun r => r.reportId == "D")).map (moveRow "K" 50)) ∧
        (∀ dv, (moveRow "K" 50 dv).vote = dv.vote ∧
          (moveRow "K" 50 dv).weight = dv.weight ∧
          (moveRow "K" 50 dv).userId = dv.userId))) := by
  refine ⟨by decide, by decide, by decide, by decide, by decide, by decide, ?_⟩
  exact mergeDuplicateReports_conservation mergeMoveDB "K" "D" 50
    ⟨"m1", "K", "post", "p1", "active", none, [], none, none, none⟩
    ⟨"m2", "D", "post", "p1", "active", none, [], none, none, none⟩
    (by decide) (by decide) (by decide) (by decide) (by decide)
    rfl rfl rfl rfl (by decide)

end CS546
